import Mathlib

/-!
Verification of the financial evaluation engine of the Birmingham hydrogen
bus fleet expansion analysis.

The Python source (src/parameters.py, src/demand.py, src/infrastructure.py,
src/emissions.py, src/economics.py) is shallowly embedded over exact
rationals: every Python float value and float computation is modelled by a
`ℚ` value, Python's builtin `round(x, n)` (round half to even on the exact
value) is modelled by `roundQ n`, Python's `None` optional values by
`Option`, the float infinity produced for the simple payback by `Option.none`,
and a `ZeroDivisionError` raised by scalar float division / negative power
by `Except.error`.
-/

/-- Round a rational to the nearest integer, ties to even — the rounding
used by Python's builtin `round` (on exact values; binary-float ties are
ignored by this idealisation). -/
def rhe (x : ℚ) : ℤ :=
  if Int.fract x < 1/2 then ⌊x⌋
  else if 1/2 < Int.fract x then ⌊x⌋ + 1
  else if ⌊x⌋ % 2 = 0 then ⌊x⌋ else ⌊x⌋ + 1

/-- Model of Python's `round(x, n)`: round to `n` decimal places, ties to even. -/
def roundQ (n : ℕ) (x : ℚ) : ℚ := (rhe (x * 10 ^ n) : ℚ) / 10 ^ n

/-- Rounding to the nearest integer moves a value by at most 1/2. -/
theorem rhe_err (x : ℚ) : |(rhe x : ℚ) - x| ≤ 1/2 := by
  have hfr0 : 0 ≤ Int.fract x := Int.fract_nonneg x
  have hfr1 : Int.fract x < 1 := Int.fract_lt_one x
  have hfl : (⌊x⌋ : ℚ) = x - Int.fract x := by
    rw [Int.self_sub_fract]
  unfold rhe
  split
  · rename_i h
    rw [abs_le]
    constructor <;> rw [hfl] <;> linarith
  · rename_i h
    push_neg at h
    split
    · rename_i h2
      rw [abs_le]
      constructor <;> push_cast <;> rw [hfl] <;> linarith
    · rename_i h2
      push_neg at h2
      have he : Int.fract x = 1/2 := le_antisymm h2 h
      split <;> rw [abs_le] <;> constructor <;> push_cast <;> rw [hfl] <;> linarith

/-- Rounding an integer value changes nothing. -/
theorem rhe_intCast (k : ℤ) : rhe (k : ℚ) = k := by
  unfold rhe
  rw [Int.fract_intCast, Int.floor_intCast]
  norm_num

/-- Rounding to `n` decimals moves a value by at most half a unit in the
last place. -/
theorem roundQ_err (n : ℕ) (x : ℚ) : |roundQ n x - x| ≤ 1 / (2 * 10 ^ n) := by
  have h10 : (0:ℚ) < 10 ^ n := by positivity
  have hx : roundQ n x - x = ((rhe (x * 10 ^ n) : ℚ) - x * 10 ^ n) / 10 ^ n := by
    unfold roundQ
    field_simp
    ring
  rw [hx, abs_div, abs_of_pos h10, div_le_iff₀ h10]
  have := rhe_err (x * 10 ^ n)
  calc |(rhe (x * 10 ^ n) : ℚ) - x * 10 ^ n| ≤ 1/2 := this
  _ = 1 / (2 * 10 ^ n) * 10 ^ n := by field_simp
  _ ≤ 1 / (2 * 10 ^ n) * 10 ^ n := le_refl _

/-- Rounding to `n` decimals is idempotent. -/
theorem roundQ_idem (n : ℕ) (x : ℚ) : roundQ n (roundQ n x) = roundQ n x := by
  unfold roundQ
  have h10 : (10:ℚ) ^ n ≠ 0 := by positivity
  rw [div_mul_cancel₀ _ h10, rhe_intCast]

/-! Constants of src/parameters.py (only those consumed by the embedded
functions), as exact rationals. -/

def EXISTING_BUSES : ℚ := 20
def TOTAL_BUSES : ℚ := 140
def FUEL_ECONOMY_KG_100KM : ℚ := 85/10
def DAILY_MILEAGE_KM : ℚ := 300
def DAYS_PER_YEAR : ℚ := 365
def EXISTING_TYSELEY_CAPACITY_KG_DAY : ℚ := 1000
def ELECTROLYSER_YIELD : ℚ := 267
def NEW_ELECTROLYSER_MWE : ℚ := 12
def ELECTROLYSER_COST_PER_KW : ℚ := 750
def BOP_FRACTION : ℚ := 75/100
def ELECTROLYSER_LIFETIME_YR : ℕ := 25
def ELECTROLYSER_EFFICIENCY_KWH_KG : ℚ := 55
def STACK_REPLACEMENT_FRACTION : ℚ := 15/100
def ELECTROLYSER_OPEX_FRAC : ℚ := 2/100
def ELECTRICITY_PRICE_GBP_MWH : ℚ := 57
def TRANSPORT_COST_GBP_KG : ℚ := 85/100
def HRS_OPEX_GBP_KG : ℚ := 104/100
def HRS_CAPEX_EUR_PER_STATION : ℚ := 2850000
def EUR_GBP : ℚ := 118/100
def NEW_HRS_STATIONS : ℚ := 3
def TYSELEY_DISPENSING_CAPACITY : ℚ := 800
def PERRY_BARR_CAPACITY : ℚ := 1000
def YARDLEY_WOOD_CAPACITY : ℚ := 1000
def ACOCKS_GREEN_CAPACITY : ℚ := 800
def TOTAL_NETWORK_CAPACITY : ℚ :=
  TYSELEY_DISPENSING_CAPACITY + PERRY_BARR_CAPACITY +
  YARDLEY_WOOD_CAPACITY + ACOCKS_GREEN_CAPACITY
def DISCOUNT_RATE : ℚ := 8/100
def PROJECT_LIFE_YR : ℕ := 20
def GRID_CARBON_INTENSITY_G_KWH : ℚ := 35
def HRS_ENERGY_KWH_KG : ℚ := 421/100
def TRANSPORT_EMISSION_KG_KG : ℚ := 27/1000
def DIESEL_EMISSION_KG_KM : ℚ := 9/10
def DIESEL_PRICE_GBP_LITRE : ℚ := 14/10
def DIESEL_FUEL_ECONOMY_KM_L : ℚ := 300/(18404/100)
def CARBON_PRICE_BASELINE : ℚ := 50

/-! src/demand.py -/

/-- Result record of `calculate_demand` (src/demand.py). -/
structure DemandResults where
  daily_per_bus_kg : ℚ
  existing_fleet_daily_kg : ℚ
  full_fleet_daily_kg : ℚ
  supply_gap_kg_day : ℚ
  annual_total_kg : ℚ
  annual_total_tonnes : ℚ
  annual_fleet_mileage_km : ℚ
deriving DecidableEq

/-- `calculate_demand` of src/demand.py; the Python default arguments are
supplied explicitly by `calculate_demand_default`. -/
def calculate_demand (total_buses fuel_economy daily_mileage_km
    existing_capacity_kg_day : ℚ) : DemandResults :=
  let daily_per_bus := (daily_mileage_km / 100) * fuel_economy
  let full_fleet_daily := total_buses * daily_per_bus
  let existing_fleet_daily := EXISTING_BUSES * daily_per_bus
  let supply_gap := full_fleet_daily - existing_capacity_kg_day
  let annual_total := full_fleet_daily * DAYS_PER_YEAR
  let annual_mileage := total_buses * daily_mileage_km * DAYS_PER_YEAR
  { daily_per_bus_kg := roundQ 2 daily_per_bus
    existing_fleet_daily_kg := roundQ 1 existing_fleet_daily
    full_fleet_daily_kg := roundQ 1 full_fleet_daily
    supply_gap_kg_day := roundQ 1 supply_gap
    annual_total_kg := roundQ 0 annual_total
    annual_total_tonnes := roundQ 1 (annual_total / 1000)
    annual_fleet_mileage_km := roundQ 0 annual_mileage }

/-- `calculate_demand()` with every argument at its default. -/
def calculate_demand_default : DemandResults :=
  calculate_demand TOTAL_BUSES FUEL_ECONOMY_KG_100KM DAILY_MILEAGE_KM
    EXISTING_TYSELEY_CAPACITY_KG_DAY

/-! src/infrastructure.py -/

/-- Result record of `calculate_capex` (src/infrastructure.py). -/
structure InfrastructureCapex where
  electrolyser_equipment_gbp : ℚ
  electrolyser_bop_gbp : ℚ
  electrolyser_total_gbp : ℚ
  hrs_per_station_gbp : ℚ
  hrs_total_gbp : ℚ
  total_capex_gbp : ℚ
  new_production_kg_day : ℚ
  total_production_kg_day : ℚ
  total_network_dispensing_kg_day : ℚ
deriving DecidableEq

/-- `calculate_capex` of src/infrastructure.py (`n_new_stations`, an `int`
in the source, enters only as a multiplier and is carried as `ℚ`). -/
def calculate_capex (new_electrolyser_mwe electrolyser_cost_per_kw
    bop_fraction hrs_capex_eur n_new_stations eur_gbp : ℚ) :
    InfrastructureCapex :=
  let capacity_kw := new_electrolyser_mwe * 1000
  let equip := capacity_kw * electrolyser_cost_per_kw
  let bop := equip * bop_fraction
  let elec_total := equip + bop
  let hrs_per_station_gbp := hrs_capex_eur / eur_gbp
  let hrs_total := hrs_per_station_gbp * n_new_stations
  let total_capex := elec_total + hrs_total
  let new_prod := new_electrolyser_mwe * ELECTROLYSER_YIELD
  let total_prod := EXISTING_TYSELEY_CAPACITY_KG_DAY + new_prod
  { electrolyser_equipment_gbp := roundQ 0 equip
    electrolyser_bop_gbp := roundQ 0 bop
    electrolyser_total_gbp := roundQ 0 elec_total
    hrs_per_station_gbp := roundQ 0 hrs_per_station_gbp
    hrs_total_gbp := roundQ 0 hrs_total
    total_capex_gbp := roundQ 0 total_capex
    new_production_kg_day := roundQ 0 new_prod
    total_production_kg_day := roundQ 0 total_prod
    total_network_dispensing_kg_day := TOTAL_NETWORK_CAPACITY }

/-- `calculate_capex()` with every argument at its default. -/
def calculate_capex_default : InfrastructureCapex :=
  calculate_capex NEW_ELECTROLYSER_MWE ELECTROLYSER_COST_PER_KW BOP_FRACTION
    HRS_CAPEX_EUR_PER_STATION NEW_HRS_STATIONS EUR_GBP

/-! src/emissions.py -/

/-- Result record of `calculate_emissions` (src/emissions.py). -/
structure EmissionsResults where
  production_co2_kg_kgh2 : ℚ
  hrs_co2_kg_kgh2 : ℚ
  transport_co2_kg_kgh2 : ℚ
  total_h2_ef_kg_kgh2 : ℚ
  h2_annual_co2_tonnes : ℚ
  diesel_annual_co2_tonnes : ℚ
  co2_saving_tonnes_yr : ℚ
  co2_reduction_pct : ℚ
deriving DecidableEq

/-- `calculate_emissions` of src/emissions.py; its single parameter is the
grid carbon intensity in gCO2e/kWh (default `GRID_CARBON_INTENSITY_G_KWH`). -/
def calculate_emissions (grid_carbon_intensity : ℚ) : EmissionsResults :=
  let demand := calculate_demand_default
  let prod_ef := (ELECTROLYSER_EFFICIENCY_KWH_KG * grid_carbon_intensity) / 1000
  let hrs_ef := (HRS_ENERGY_KWH_KG * grid_carbon_intensity) / 1000
  let trans_ef := TRANSPORT_EMISSION_KG_KG
  let total_ef := prod_ef + hrs_ef + trans_ef
  let h2_annual_co2 := (demand.annual_total_kg * total_ef) / 1000
  let diesel_annual_co2 := (demand.annual_fleet_mileage_km * DIESEL_EMISSION_KG_KM) / 1000
  let saving := diesel_annual_co2 - h2_annual_co2
  let reduction_pct := (saving / diesel_annual_co2) * 100
  { production_co2_kg_kgh2 := roundQ 4 prod_ef
    hrs_co2_kg_kgh2 := roundQ 4 hrs_ef
    transport_co2_kg_kgh2 := roundQ 4 trans_ef
    total_h2_ef_kg_kgh2 := roundQ 4 total_ef
    h2_annual_co2_tonnes := roundQ 1 h2_annual_co2
    diesel_annual_co2_tonnes := roundQ 1 diesel_annual_co2
    co2_saving_tonnes_yr := roundQ 1 saving
    co2_reduction_pct := roundQ 1 reduction_pct }

/-! src/economics.py — helpers -/

/-- `_annuity_factor` of src/economics.py, verbatim: note that the
`rate == 0` branch returns `n_years` itself. -/
def _annuity_factor (rate : ℚ) (n_years : ℕ) : ℚ :=
  if rate = 0 then (n_years : ℚ)
  else (rate * (1 + rate) ^ n_years) / ((1 + rate) ^ n_years - 1)

/-- The discounted sum `Σ cash_flows[t] / (1+r)^t` computed by both `_npv`
and the inner `npv_at_rate` of `_irr` (src/economics.py). -/
def npv_at_rate (cash_flows : List ℚ) (r : ℚ) : ℚ :=
  (List.zipWith (fun c t => c / (1 + r) ^ t) cash_flows
    (List.range cash_flows.length)).sum

/-- `_npv` of src/economics.py. -/
def _npv (cash_flows : List ℚ) (discount_rate : ℚ) : ℚ :=
  npv_at_rate cash_flows discount_rate

/-- The bisection loop of `_irr` (src/economics.py lines 64–75): `fuel`
remaining iterations, carrying the invariant argument `npv_lo`; when the
iteration budget is exhausted the final midpoint is returned. -/
def bisect (cash_flows : List ℚ) : ℚ → ℚ → ℚ → ℕ → ℚ
  | _, lo, hi, 0 => (lo + hi) / 2
  | npv_lo, lo, hi, n + 1 =>
    let mid := (lo + hi) / 2
    let npv_mid := npv_at_rate cash_flows mid
    if |npv_mid| < 1 then mid
    else if npv_lo * npv_mid < 0 then bisect cash_flows npv_lo lo mid n
    else bisect cash_flows npv_mid mid hi n

/-- `_irr` of src/economics.py: sign-change check on `[-0.5, 2.0]` followed
by at most 100 bisection steps. -/
def _irr (cash_flows : List ℚ) : Option ℚ :=
  let lo : ℚ := -(1/2)
  let hi : ℚ := 2
  let npv_lo := npv_at_rate cash_flows lo
  let npv_hi := npv_at_rate cash_flows hi
  if npv_lo * npv_hi > 0 then none
  else some (bisect cash_flows npv_lo lo hi 100)

/-! src/economics.py — main functions -/

/-- Result record of `calculate_lcoh` (src/economics.py). -/
structure LCOHBreakdown where
  electricity_cost_gbp_kg : ℚ
  capex_amortised_gbp_kg : ℚ
  opex_non_energy_gbp_kg : ℚ
  stack_replacement_gbp_kg : ℚ
  production_lcoh_gbp_kg : ℚ
  transport_gbp_kg : ℚ
  hrs_opex_gbp_kg : ℚ
  total_dispensed_cost_gbp_kg : ℚ
deriving DecidableEq

/-- `calculate_lcoh` of src/economics.py. The two leading arguments default
in Python to `ELECTRICITY_PRICE_GBP_MWH` and `DISCOUNT_RATE`; the five
`Option` arguments are the explicit sensitivity overrides, `none` meaning
"use the value from parameters.py" exactly as the `is not None` resolution
in the source. -/
def calculate_lcoh (electricity_price_gbp_mwh discount_rate : ℚ)
    (electrolyser_efficiency_kwh_kg electrolyser_cost_per_kw bop_fraction
      transport_cost_gbp_kg hrs_opex_gbp_kg_override : Option ℚ) :
    LCOHBreakdown :=
  let eff := electrolyser_efficiency_kwh_kg.getD ELECTROLYSER_EFFICIENCY_KWH_KG
  let cost_kw := electrolyser_cost_per_kw.getD ELECTROLYSER_COST_PER_KW
  let bop_frac := bop_fraction.getD BOP_FRACTION
  let trans := transport_cost_gbp_kg.getD TRANSPORT_COST_GBP_KG
  let hrs_opex := hrs_opex_gbp_kg_override.getD HRS_OPEX_GBP_KG
  let capex := calculate_capex NEW_ELECTROLYSER_MWE cost_kw bop_frac
    HRS_CAPEX_EUR_PER_STATION NEW_HRS_STATIONS EUR_GBP
  let annual_prod_kg := NEW_ELECTROLYSER_MWE * ELECTROLYSER_YIELD * DAYS_PER_YEAR
  let elec_gbp_kwh := electricity_price_gbp_mwh / 1000
  let electricity_cost := eff * elec_gbp_kwh
  let crf := _annuity_factor discount_rate ELECTROLYSER_LIFETIME_YR
  let annual_capex_charge := capex.electrolyser_total_gbp * crf
  let capex_per_kg := annual_capex_charge / annual_prod_kg
  let annual_opex := capex.electrolyser_total_gbp * ELECTROLYSER_OPEX_FRAC
  let opex_per_kg := annual_opex / annual_prod_kg
  let annual_stack := capex.electrolyser_total_gbp * (STACK_REPLACEMENT_FRACTION / 10)
  let stack_per_kg := annual_stack / annual_prod_kg
  let production_lcoh := electricity_cost + capex_per_kg + opex_per_kg + stack_per_kg
  let total_cost := production_lcoh + trans + hrs_opex
  { electricity_cost_gbp_kg := roundQ 3 electricity_cost
    capex_amortised_gbp_kg := roundQ 3 capex_per_kg
    opex_non_energy_gbp_kg := roundQ 3 opex_per_kg
    stack_replacement_gbp_kg := roundQ 3 stack_per_kg
    production_lcoh_gbp_kg := roundQ 3 production_lcoh
    transport_gbp_kg := roundQ 3 trans
    hrs_opex_gbp_kg := roundQ 3 hrs_opex
    total_dispensed_cost_gbp_kg := roundQ 3 total_cost }

/-- Result record of `calculate_annual_costs` (src/economics.py). -/
structure AnnualCosts where
  h2_fuel_cost_gbp : ℚ
  diesel_fuel_cost_gbp : ℚ
  fuel_saving_gbp : ℚ
  carbon_saving_tonnes : ℚ
  carbon_saving_value_gbp : ℚ
  total_annual_benefit_gbp : ℚ
deriving DecidableEq

/-- `calculate_annual_costs` of src/economics.py. It calls
`calculate_lcoh(electricity_price_gbp_mwh)` (all other arguments defaulted)
and `calculate_emissions(electricity_price_gbp_mwh)` — so the electricity
price is passed where `calculate_emissions` expects a grid carbon
intensity. -/
def calculate_annual_costs (electricity_price_gbp_mwh carbon_price_gbp_tonne
    diesel_price_gbp_litre : ℚ) : AnnualCosts :=
  let demand := calculate_demand_default
  let lcoh := calculate_lcoh electricity_price_gbp_mwh DISCOUNT_RATE
    none none none none none
  let emis := calculate_emissions electricity_price_gbp_mwh
  let h2_cost := demand.annual_total_kg * lcoh.total_dispensed_cost_gbp_kg
  let total_diesel_litres :=
    (TOTAL_BUSES * DAILY_MILEAGE_KM * DAYS_PER_YEAR) / DIESEL_FUEL_ECONOMY_KM_L
  let diesel_cost := total_diesel_litres * diesel_price_gbp_litre
  let fuel_saving := diesel_cost - h2_cost
  let co2_saved := emis.co2_saving_tonnes_yr
  let carbon_value := co2_saved * carbon_price_gbp_tonne
  let total_benefit := fuel_saving + carbon_value
  { h2_fuel_cost_gbp := roundQ 0 h2_cost
    diesel_fuel_cost_gbp := roundQ 0 diesel_cost
    fuel_saving_gbp := roundQ 0 fuel_saving
    carbon_saving_tonnes := roundQ 1 co2_saved
    carbon_saving_value_gbp := roundQ 0 carbon_value
    total_annual_benefit_gbp := roundQ 0 total_benefit }

/-- Result record of `calculate_npv_irr` (src/economics.py).
`irr_pct = none` models Python's `None`; `simple_payback_yr = none` models
the float infinity produced when the annual benefit is not positive. -/
structure FinancialAnalysis where
  total_capex_gbp : ℚ
  annual_benefit_gbp : ℚ
  npv_gbp : ℚ
  irr_pct : Option ℚ
  simple_payback_yr : Option ℚ
  bcr : ℚ
deriving DecidableEq

/-- The cash-flow series `[-total_capex] + [annual_benefit] * project_life_yr`
built by `calculate_npv_irr`. -/
def build_cash_flows (total_capex annual_benefit : ℚ) (project_life_yr : ℕ) :
    List ℚ :=
  (-total_capex) :: List.replicate project_life_yr annual_benefit

/-- `calculate_npv_irr` of src/economics.py. The only statement of the
function that can raise is the benefit-cost-ratio line
`annual_benefit * ((1 - (1 + discount_rate) ** -project_life_yr) / discount_rate)`:
a `ZeroDivisionError` from the scalar float power when
`1 + discount_rate = 0` with a positive project life, or from the division
when `discount_rate = 0` (the earlier numpy array divisions produce
non-finite values instead of raising, and the result of the function then
never materialises because this line raises first; the degenerate
`discount_rate = -1, project_life_yr = 0` call returns normally in Python
and here). -/
def calculate_npv_irr (electricity_price_gbp_mwh carbon_price_gbp_tonne
    discount_rate : ℚ) (project_life_yr : ℕ) (diesel_price_gbp_litre : ℚ) :
    Except String FinancialAnalysis :=
  let capex := calculate_capex_default
  let costs := calculate_annual_costs electricity_price_gbp_mwh
    carbon_price_gbp_tonne diesel_price_gbp_litre
  let total_capex := capex.total_capex_gbp
  let annual_benefit := costs.total_annual_benefit_gbp
  let cash_flows := build_cash_flows total_capex annual_benefit project_life_yr
  if (1 + discount_rate = 0 ∧ 0 < project_life_yr) ∨ discount_rate = 0 then
    .error "ZeroDivisionError"
  else
    let npv := _npv cash_flows discount_rate
    let irr_val := _irr cash_flows
    let irr_pct := irr_val.map (fun v => roundQ 2 (v * 100))
    let simple_payback : Option ℚ :=
      if annual_benefit > 0 then some (total_capex / annual_benefit) else none
    let pv_benefits := annual_benefit *
      ((1 - (1 + discount_rate) ^ (-(project_life_yr : ℤ))) / discount_rate)
    let bcr := pv_benefits / total_capex
    .ok { total_capex_gbp := roundQ 0 total_capex
          annual_benefit_gbp := roundQ 0 annual_benefit
          npv_gbp := roundQ 0 npv
          irr_pct := irr_pct
          simple_payback_yr := simple_payback.map (roundQ 1)
          bcr := roundQ 3 bcr }

/-- `diesel_breakeven_price` of src/economics.py; like
`calculate_annual_costs` it passes the electricity price to
`calculate_emissions` as the grid carbon intensity. -/
def diesel_breakeven_price (electricity_price_gbp_mwh carbon_price_gbp_tonne : ℚ) :
    ℚ :=
  let demand := calculate_demand_default
  let lcoh := calculate_lcoh electricity_price_gbp_mwh DISCOUNT_RATE
    none none none none none
  let emis := calculate_emissions electricity_price_gbp_mwh
  let h2_annual := demand.annual_total_kg * lcoh.total_dispensed_cost_gbp_kg
  let diesel_carbon_penalty := emis.diesel_annual_co2_tonnes * carbon_price_gbp_tonne
  let total_diesel_litres :=
    (TOTAL_BUSES * DAILY_MILEAGE_KM * DAYS_PER_YEAR) / DIESEL_FUEL_ECONOMY_KM_L
  let breakeven := (h2_annual - diesel_carbon_penalty) / total_diesel_litres
  roundQ 3 breakeven

/-! Helper lemmas about the embedded functions. -/

/-- The discounted sum of a one-element series is its only entry. -/
theorem npv_singleton (c r : ℚ) : npv_at_rate [c] r = c := by
  have h1 : List.range 1 = [0] := rfl
  simp [npv_at_rate, h1]

/-- The discounted sum of a two-element series `[a, b]`. -/
theorem npv_pair (a b r : ℚ) : npv_at_rate [a, b] r = a + b / (1 + r) := by
  have h2 : List.range 2 = [0, 1] := rfl
  simp [npv_at_rate, h2]

/-- The discounted sum of an all-zero series vanishes at every rate. -/
theorem npv_replicate_zero (n : ℕ) (r : ℚ) :
    npv_at_rate (List.replicate n 0) r = 0 := by
  unfold npv_at_rate
  have aux : ∀ (m : ℕ) (ts : List ℕ),
      (List.zipWith (fun c t => c / (1 + r) ^ t) (List.replicate m (0:ℚ)) ts).sum = 0 := by
    intro m
    induction m with
    | zero => intro ts; simp
    | succ k ih =>
      intro ts
      cases ts with
      | nil => simp
      | cons t ts' => simp [List.replicate_succ, ih ts']
  exact aux n _

/-- At rate 0 the discounted sum is the plain sum of the series. -/
theorem npv_zero_rate (cf : List ℚ) : npv_at_rate cf 0 = cf.sum := by
  unfold npv_at_rate
  have aux : ∀ (l : List ℚ) (ts : List ℕ), l.length ≤ ts.length →
      (List.zipWith (fun c t => c / (1 + (0:ℚ)) ^ t) l ts).sum = l.sum := by
    intro l
    induction l with
    | nil => intro ts _; simp
    | cons c l' ih =>
      intro ts hts
      cases ts with
      | nil => simp at hts
      | cons t ts' =>
        have h1 : (1 + (0:ℚ)) ^ t = 1 := by norm_num
        simp only [List.zipWith_cons_cons, List.sum_cons, h1, div_one,
          List.length_cons] at *
        rw [ih ts' (by omega)]
  exact aux cf _ (by simp)

/-- Exhausted iteration budget: `bisect` returns the current midpoint. -/
theorem bisect_zero (cf : List ℚ) (L lo hi : ℚ) :
    bisect cf L lo hi 0 = (lo + hi) / 2 := rfl

/-- One `bisect` step that meets the £1 tolerance at the midpoint. -/
theorem bisect_step_tol (cf : List ℚ) (L lo hi m v : ℚ) (n : ℕ)
    (hm : (lo + hi) / 2 = m) (hv : npv_at_rate cf m = v)
    (h1 : -1 < v ∧ v < 1) : bisect cf L lo hi (n + 1) = m := by
  have habs : |npv_at_rate cf ((lo + hi) / 2)| < 1 := by
    rw [hm, hv, abs_lt]; exact h1
  simp only [bisect]
  rw [if_pos habs, hm]

/-- One `bisect` step that keeps the left half `[lo, mid]`. -/
theorem bisect_step_lt (cf : List ℚ) (L lo hi m v : ℚ) (n : ℕ)
    (hm : (lo + hi) / 2 = m) (hv : npv_at_rate cf m = v)
    (h1 : v ≤ -1 ∨ 1 ≤ v) (h2 : L * v < 0) :
    bisect cf L lo hi (n + 1) = bisect cf L lo m n := by
  have habs : ¬ |npv_at_rate cf ((lo + hi) / 2)| < 1 := by
    rw [hm, hv, abs_lt]
    rintro ⟨hA, hB⟩
    rcases h1 with h | h <;> linarith
  have hcond : L * npv_at_rate cf ((lo + hi) / 2) < 0 := by rw [hm, hv]; exact h2
  simp only [bisect]
  rw [if_neg habs, if_pos hcond, hm]

/-- One `bisect` step that keeps the right half `[mid, hi]`. -/
theorem bisect_step_ge (cf : List ℚ) (L lo hi m v : ℚ) (n : ℕ)
    (hm : (lo + hi) / 2 = m) (hv : npv_at_rate cf m = v)
    (h1 : v ≤ -1 ∨ 1 ≤ v) (h2 : 0 ≤ L * v) :
    bisect cf L lo hi (n + 1) = bisect cf v m hi n := by
  have habs : ¬ |npv_at_rate cf ((lo + hi) / 2)| < 1 := by
    rw [hm, hv, abs_lt]
    rintro ⟨hA, hB⟩
    rcases h1 with h | h <;> linarith
  have hcond : ¬ L * npv_at_rate cf ((lo + hi) / 2) < 0 := by
    rw [hm, hv]; exact not_lt.mpr h2
  simp only [bisect]
  rw [if_neg habs, if_neg hcond, hm, hv]

/-- Loop invariant of the bisection: starting from a bracket with a strict
sign change, the result lies in the bracket and either meets the £1 NPV
tolerance or is the midpoint of a final bracket of width `(hi - lo) / 2 ^ n`
whose endpoint NPVs still have opposite signs. -/
theorem bisect_spec (cf : List ℚ) : ∀ (n : ℕ) (lo hi : ℚ), lo < hi →
    npv_at_rate cf lo * npv_at_rate cf hi < 0 →
    lo ≤ bisect cf (npv_at_rate cf lo) lo hi n ∧
    bisect cf (npv_at_rate cf lo) lo hi n ≤ hi ∧
    (|npv_at_rate cf (bisect cf (npv_at_rate cf lo) lo hi n)| < 1 ∨
      ∃ l h, lo ≤ l ∧ h ≤ hi ∧
        bisect cf (npv_at_rate cf lo) lo hi n = (l + h) / 2 ∧
        h - l = (hi - lo) / 2 ^ n ∧
        npv_at_rate cf l * npv_at_rate cf h < 0) := by
  intro n
  induction n with
  | zero =>
    intro lo hi hlt hprod
    refine ⟨by rw [bisect_zero]; linarith, by rw [bisect_zero]; linarith, Or.inr ?_⟩
    exact ⟨lo, hi, le_refl lo, le_refl hi, bisect_zero cf _ lo hi, by norm_num, hprod⟩
  | succ n ih =>
    intro lo hi hlt hprod
    by_cases habs : |npv_at_rate cf ((lo + hi) / 2)| < 1
    · have heq : bisect cf (npv_at_rate cf lo) lo hi (n + 1) = (lo + hi) / 2 := by
        simp only [bisect]
        rw [if_pos habs]
      rw [heq]
      exact ⟨by linarith, by linarith, Or.inl habs⟩
    · by_cases hbr : npv_at_rate cf lo * npv_at_rate cf ((lo + hi) / 2) < 0
      · have heq : bisect cf (npv_at_rate cf lo) lo hi (n + 1) =
            bisect cf (npv_at_rate cf lo) lo ((lo + hi) / 2) n := by
          simp only [bisect]
          rw [if_neg habs, if_pos hbr]
        have hmid : lo < (lo + hi) / 2 := by linarith
        obtain ⟨hA, hB, hC⟩ := ih lo ((lo + hi) / 2) hmid hbr
        rw [heq]
        refine ⟨hA, by linarith, ?_⟩
        rcases hC with hC | ⟨l, h, hl, hh, hr, hw, hp⟩
        · exact Or.inl hC
        · refine Or.inr ⟨l, h, hl, by linarith, hr, ?_, hp⟩
          rw [hw, pow_succ]
          ring
      · have hLne : npv_at_rate cf lo ≠ 0 := by
          intro h0
          rw [h0, zero_mul] at hprod
          exact absurd hprod (lt_irrefl 0)
        have hMne : npv_at_rate cf ((lo + hi) / 2) ≠ 0 := by
          intro h0
          apply habs
          rw [h0, abs_zero]
          norm_num
        have hLM : 0 < npv_at_rate cf lo * npv_at_rate cf ((lo + hi) / 2) :=
          lt_of_le_of_ne (not_lt.mp hbr) (Ne.symm (mul_ne_zero hLne hMne))
        have hprod' : npv_at_rate cf ((lo + hi) / 2) * npv_at_rate cf hi < 0 := by
          rcases hLne.lt_or_lt with hL | hL
          · have hM : npv_at_rate cf ((lo + hi) / 2) < 0 := by nlinarith
            have hH : 0 < npv_at_rate cf hi := by nlinarith
            exact mul_neg_of_neg_of_pos hM hH
          · have hM : 0 < npv_at_rate cf ((lo + hi) / 2) := by nlinarith
            have hH : npv_at_rate cf hi < 0 := by nlinarith
            exact mul_neg_of_pos_of_neg hM hH
        have heq : bisect cf (npv_at_rate cf lo) lo hi (n + 1) =
            bisect cf (npv_at_rate cf ((lo + hi) / 2)) ((lo + hi) / 2) hi n := by
          simp only [bisect]
          rw [if_neg habs, if_neg hbr]
        have hmid : (lo + hi) / 2 < hi := by linarith
        obtain ⟨hA, hB, hC⟩ := ih ((lo + hi) / 2) hi hmid hprod'
        rw [heq]
        refine ⟨by linarith, hB, ?_⟩
        rcases hC with hC | ⟨l, h, hl, hh, hr, hw, hp⟩
        · exact Or.inl hC
        · refine Or.inr ⟨l, h, by linarith, hh, hr, ?_, hp⟩
          rw [hw, pow_succ]
          ring

/-- Under a nonzero discount rate with nonzero growth factor,
`calculate_npv_irr` reaches its normal return. -/
theorem calculate_npv_irr_ok (p c dr : ℚ) (N : ℕ) (d : ℚ)
    (h1 : dr ≠ 0) (h2 : 1 + dr ≠ 0) :
    calculate_npv_irr p c dr N d = .ok
      { total_capex_gbp := roundQ 0 calculate_capex_default.total_capex_gbp
        annual_benefit_gbp :=
          roundQ 0 (calculate_annual_costs p c d).total_annual_benefit_gbp
        npv_gbp := roundQ 0 (_npv (build_cash_flows
          calculate_capex_default.total_capex_gbp
          (calculate_annual_costs p c d).total_annual_benefit_gbp N) dr)
        irr_pct := (_irr (build_cash_flows
          calculate_capex_default.total_capex_gbp
          (calculate_annual_costs p c d).total_annual_benefit_gbp N)).map
            (fun v => roundQ 2 (v * 100))
        simple_payback_yr :=
          (if (calculate_annual_costs p c d).total_annual_benefit_gbp > 0
            then some (calculate_capex_default.total_capex_gbp /
              (calculate_annual_costs p c d).total_annual_benefit_gbp)
            else none).map (roundQ 1)
        bcr := roundQ 3 ((calculate_annual_costs p c d).total_annual_benefit_gbp *
          ((1 - (1 + dr) ^ (-(N : ℤ))) / dr) /
          calculate_capex_default.total_capex_gbp) } := by
  have hcond : ¬ ((1 + dr = 0 ∧ 0 < N) ∨ dr = 0) := by
    rintro (⟨hA, _⟩ | hA)
    · exact h2 hA
    · exact h1 hA
  simp only [calculate_npv_irr]
  rw [if_neg hcond]

/-- A zero discount rate (or a zero growth factor with positive project
life) makes `calculate_npv_irr` raise. -/
theorem calculate_npv_irr_raises (p c dr : ℚ) (N : ℕ) (d : ℚ)
    (h : dr = 0 ∨ (1 + dr = 0 ∧ 0 < N)) :
    calculate_npv_irr p c dr N d = .error "ZeroDivisionError" := by
  have hcond : (1 + dr = 0 ∧ 0 < N) ∨ dr = 0 := h.symm
  simp only [calculate_npv_irr]
  rw [if_pos hcond]

/-- The only error `calculate_npv_irr` can produce comes from the
benefit-cost-ratio line and concerns the discount rate alone. -/
theorem calculate_npv_irr_error_cases (p c dr : ℚ) (N : ℕ) (d : ℚ) (e : String)
    (h : calculate_npv_irr p c dr N d = .error e) : dr = 0 ∨ 1 + dr = 0 := by
  by_cases hcond : (1 + dr = 0 ∧ 0 < N) ∨ dr = 0
  · rcases hcond with ⟨hA, _⟩ | hA
    · exact Or.inr hA
    · exact Or.inl hA
  · exfalso
    simp only [calculate_npv_irr] at h
    rw [if_neg hcond] at h
    exact Except.noConfusion h

/-- C1: `_annuity_factor(0, n)` returns `n` (the horizon itself), not the
straight-line factor `1/n` required by the claim and by the function's own
capital-recovery-factor reading; at the baseline horizon 20 the returned
factor 20 differs from 1/20. -/
theorem C1_annuity_factor_zero_rate :
    (∀ n : ℕ, _annuity_factor 0 n = n) ∧ _annuity_factor 0 20 ≠ 1/20 := by
  constructor
  · intro n
    unfold _annuity_factor
    rw [if_pos rfl]
  · unfold _annuity_factor
    rw [if_pos rfl]
    norm_num

/-- C2: with every parameter at its baseline default the embedded
`calculate_lcoh` returns a total dispensed cost of exactly 6.758 £/kg,
which is not within ±0.05 of the documented 8.36 £/kg calibration. -/
theorem C2_baseline_lcoh_off_calibration :
    (calculate_lcoh ELECTRICITY_PRICE_GBP_MWH DISCOUNT_RATE none none none
      none none).total_dispensed_cost_gbp_kg = 3379/500 ∧
    ¬ |(calculate_lcoh ELECTRICITY_PRICE_GBP_MWH DISCOUNT_RATE none none none
      none none).total_dispensed_cost_gbp_kg - 836/100| ≤ 5/100 := by
  have h : (calculate_lcoh ELECTRICITY_PRICE_GBP_MWH DISCOUNT_RATE none none
      none none none).total_dispensed_cost_gbp_kg = 3379/500 := by
    norm_num [calculate_lcoh, calculate_capex, _annuity_factor, roundQ, rhe,
      Int.fract, ELECTRICITY_PRICE_GBP_MWH, DISCOUNT_RATE,
      ELECTROLYSER_EFFICIENCY_KWH_KG, ELECTROLYSER_COST_PER_KW, BOP_FRACTION,
      TRANSPORT_COST_GBP_KG, HRS_OPEX_GBP_KG, NEW_ELECTROLYSER_MWE,
      ELECTROLYSER_YIELD, DAYS_PER_YEAR, ELECTROLYSER_LIFETIME_YR,
      ELECTROLYSER_OPEX_FRAC, STACK_REPLACEMENT_FRACTION,
      HRS_CAPEX_EUR_PER_STATION, NEW_HRS_STATIONS, EUR_GBP,
      EXISTING_TYSELEY_CAPACITY_KG_DAY]
  refine ⟨h, ?_⟩
  rw [h]
  intro hc
  rw [abs_le] at hc
  obtain ⟨hc1, hc2⟩ := hc
  norm_num at hc1

/-- C3 (counterexample): the one-element zero series has endpoint NPV
product 0 — non-negative, so the claim demands `None` — yet `_irr` runs the
bisection and returns the numeric rate 0.75. -/
theorem C3_nonneg_product_cex :
    0 ≤ npv_at_rate [(0:ℚ)] (-(1/2)) * npv_at_rate [(0:ℚ)] 2 ∧
    _irr [(0:ℚ)] = some (3/4) := by
  constructor
  · rw [npv_singleton, npv_singleton]
    norm_num
  · have hneg : ¬ 0 < npv_at_rate [(0:ℚ)] (-(1/2)) * npv_at_rate [(0:ℚ)] 2 := by
      rw [npv_singleton, npv_singleton]
      norm_num
    have hb : bisect [(0:ℚ)] (npv_at_rate [(0:ℚ)] (-(1/2))) (-(1/2)) 2 100 = 3/4 :=
      bisect_step_tol [(0:ℚ)] _ (-(1/2)) 2 (3/4) 0 99 (by norm_num)
        (npv_singleton 0 (3/4)) (by norm_num)
    simp only [_irr]
    rw [if_neg hneg, hb]

/-- C3 (amended): `_irr` reports absence exactly when the endpoint NPV
product is strictly positive — a zero product still enters the bisection
and yields a numeric rate — and for any discount rate other than 0 and -1
`calculate_npv_irr` returns its full record whether or not an IRR exists. -/
theorem C3_irr_absent_on_strict_sign_agreement :
    (∀ cf : List ℚ, 0 < npv_at_rate cf (-(1/2)) * npv_at_rate cf 2 →
      _irr cf = none) ∧
    (∀ cf : List ℚ, npv_at_rate cf (-(1/2)) * npv_at_rate cf 2 ≤ 0 →
      ∃ x, _irr cf = some x) ∧
    (∀ p c dr : ℚ, ∀ N : ℕ, ∀ d : ℚ, dr ≠ 0 → 1 + dr ≠ 0 →
      ∃ fa, calculate_npv_irr p c dr N d = .ok fa) := by
  refine ⟨?_, ?_, ?_⟩
  · intro cf h
    simp only [_irr]
    rw [if_pos h]
  · intro cf h
    simp only [_irr]
    rw [if_neg (not_lt.mpr h)]
    exact ⟨_, rfl⟩
  · intro p c dr N d h1 h2
    exact ⟨_, calculate_npv_irr_ok p c dr N d h1 h2⟩

/-- Witness for C3: a strictly positive product (series `[1]`) gives `None`,
a non-positive product (series `[1, -1]`) gives a numeric rate, and the
baseline `calculate_npv_irr` call returns a full record. -/
theorem C3_irr_absent_on_strict_sign_agreement_witness :
    _irr [(1:ℚ)] = none ∧ (∃ x, _irr [(1:ℚ), -1] = some x) ∧
    ∃ fa, calculate_npv_irr 57 50 (2/25) 20 (7/5) = .ok fa := by
  refine ⟨C3_irr_absent_on_strict_sign_agreement.1 [(1:ℚ)] ?_,
    C3_irr_absent_on_strict_sign_agreement.2.1 [(1:ℚ), -1] ?_,
    C3_irr_absent_on_strict_sign_agreement.2.2 57 50 (2/25) 20 (7/5)
      (by norm_num) (by norm_num)⟩
  · rw [npv_singleton, npv_singleton]
    norm_num
  · rw [npv_pair, npv_pair]
    norm_num

/-- C5 (counterexample): `_irr` does not fail on degenerate series — the
all-zero two-element series yields the numeric rate 0.75, and a nonzero
one-element series yields plain absence. -/
theorem C5_degenerate_cex :
    _irr [(0:ℚ), 0] = some (3/4) ∧ _irr [(7:ℚ)] = none := by
  constructor
  · have hz : ∀ r : ℚ, npv_at_rate [(0:ℚ), 0] r = 0 := by
      intro r
      rw [npv_pair]
      norm_num
    have hneg : ¬ 0 < npv_at_rate [(0:ℚ), 0] (-(1/2)) * npv_at_rate [(0:ℚ), 0] 2 := by
      rw [hz, hz]
      norm_num
    have hb : bisect [(0:ℚ), 0] (npv_at_rate [(0:ℚ), 0] (-(1/2))) (-(1/2)) 2 100 = 3/4 :=
      bisect_step_tol [(0:ℚ), 0] _ (-(1/2)) 2 (3/4) 0 99 (by norm_num)
        (hz (3/4)) (by norm_num)
    simp only [_irr]
    rw [if_neg hneg, hb]
  · have h : 0 < npv_at_rate [(7:ℚ)] (-(1/2)) * npv_at_rate [(7:ℚ)] 2 := by
      rw [npv_singleton, npv_singleton]
      norm_num
    simp only [_irr]
    rw [if_pos h]

/-- C5 (amended): `_irr` never signals an invalid-input error on degenerate
series: a one-element nonzero series reports absence, and an all-zero
series of any length returns the first midpoint 0.75 as a numeric rate. -/
theorem C5_degenerate_series_behaviour :
    (∀ c : ℚ, c ≠ 0 → _irr [c] = none) ∧
    (∀ n : ℕ, _irr (List.replicate n 0) = some (3/4)) := by
  constructor
  · intro c hc
    have h : 0 < npv_at_rate [c] (-(1/2)) * npv_at_rate [c] 2 := by
      rw [npv_singleton, npv_singleton]
      exact mul_self_pos.mpr hc
    simp only [_irr]
    rw [if_pos h]
  · intro n
    have hz : ∀ r : ℚ, npv_at_rate (List.replicate n (0:ℚ)) r = 0 :=
      fun r => npv_replicate_zero n r
    have hneg : ¬ 0 < npv_at_rate (List.replicate n (0:ℚ)) (-(1/2)) *
        npv_at_rate (List.replicate n (0:ℚ)) 2 := by
      rw [hz, hz]
      norm_num
    have hb : bisect (List.replicate n (0:ℚ))
        (npv_at_rate (List.replicate n (0:ℚ)) (-(1/2))) (-(1/2)) 2 100 = 3/4 :=
      bisect_step_tol _ _ (-(1/2)) 2 (3/4) 0 99 (by norm_num) (hz (3/4))
        (by norm_num)
    simp only [_irr]
    rw [if_neg hneg, hb]

/-- Witness for C5: the amended behaviour at the series `[5]` and at the
three-element all-zero series. -/
theorem C5_degenerate_series_behaviour_witness :
    _irr [(5:ℚ)] = none ∧ _irr (List.replicate 3 (0:ℚ)) = some (3/4) :=
  ⟨C5_degenerate_series_behaviour.1 5 (by norm_num),
    C5_degenerate_series_behaviour.2 3⟩

/-- Rounding each of six addends separately can drift from rounding their
sum by at most seven half-units in the last decimal place. -/
theorem roundQ3_sum_bound (x1 x2 x3 x4 x5 x6 : ℚ) :
    |roundQ 3 ((x1 + x2 + x3 + x4) + x5 + x6) -
      (roundQ 3 x1 + roundQ 3 x2 + roundQ 3 x3 + roundQ 3 x4 +
        roundQ 3 x5 + roundQ 3 x6)| ≤ 7/2000 := by
  have hn : (1:ℚ) / (2 * 10 ^ 3) = 1/2000 := by norm_num
  have e0 := roundQ_err 3 ((x1 + x2 + x3 + x4) + x5 + x6)
  have e1 := roundQ_err 3 x1
  have e2 := roundQ_err 3 x2
  have e3 := roundQ_err 3 x3
  have e4 := roundQ_err 3 x4
  have e5 := roundQ_err 3 x5
  have e6 := roundQ_err 3 x6
  rw [hn, abs_le] at e0 e1 e2 e3 e4 e5 e6
  obtain ⟨a0, b0⟩ := e0
  obtain ⟨a1, b1⟩ := e1
  obtain ⟨a2, b2⟩ := e2
  obtain ⟨a3, b3⟩ := e3
  obtain ⟨a4, b4⟩ := e4
  obtain ⟨a5, b5⟩ := e5
  obtain ⟨a6, b6⟩ := e6
  rw [abs_le]
  constructor <;> linarith

/-- Two roundings drift from the exact difference of their arguments by at
most one unit in the last decimal place. -/
theorem roundQ3_diff_bound (u v y x : ℚ) (h : u - v = y - x) :
    |(roundQ 3 u - roundQ 3 v) - (y - x)| ≤ 1/1000 := by
  have hn : (1:ℚ) / (2 * 10 ^ 3) = 1/2000 := by norm_num
  have eu := roundQ_err 3 u
  have ev := roundQ_err 3 v
  rw [hn, abs_le] at eu ev
  obtain ⟨au, bu⟩ := eu
  obtain ⟨av, bv⟩ := ev
  rw [abs_le]
  constructor <;> linarith

/-- C6 (counterexample): with the positive overrides
`transport_cost_gbp_kg = hrs_opex_gbp_kg = 0.0004` (all else default) the
stored total 4.869 differs from the sum 4.868 of the six stored
components. -/
theorem C6_stored_total_cex :
    (0:ℚ) < 1/2500 ∧
    (calculate_lcoh ELECTRICITY_PRICE_GBP_MWH DISCOUNT_RATE none none none
      (some (1/2500)) (some (1/2500))).total_dispensed_cost_gbp_kg ≠
    ((calculate_lcoh ELECTRICITY_PRICE_GBP_MWH DISCOUNT_RATE none none none
        (some (1/2500)) (some (1/2500))).electricity_cost_gbp_kg +
      (calculate_lcoh ELECTRICITY_PRICE_GBP_MWH DISCOUNT_RATE none none none
        (some (1/2500)) (some (1/2500))).capex_amortised_gbp_kg +
      (calculate_lcoh ELECTRICITY_PRICE_GBP_MWH DISCOUNT_RATE none none none
        (some (1/2500)) (some (1/2500))).opex_non_energy_gbp_kg +
      (calculate_lcoh ELECTRICITY_PRICE_GBP_MWH DISCOUNT_RATE none none none
        (some (1/2500)) (some (1/2500))).stack_replacement_gbp_kg +
      (calculate_lcoh ELECTRICITY_PRICE_GBP_MWH DISCOUNT_RATE none none none
        (some (1/2500)) (some (1/2500))).transport_gbp_kg +
      (calculate_lcoh ELECTRICITY_PRICE_GBP_MWH DISCOUNT_RATE none none none
        (some (1/2500)) (some (1/2500))).hrs_opex_gbp_kg) := by
  constructor
  · norm_num
  · norm_num [calculate_lcoh, calculate_capex, _annuity_factor, roundQ, rhe,
      Int.fract, ELECTRICITY_PRICE_GBP_MWH, DISCOUNT_RATE,
      ELECTROLYSER_EFFICIENCY_KWH_KG, ELECTROLYSER_COST_PER_KW, BOP_FRACTION,
      NEW_ELECTROLYSER_MWE, ELECTROLYSER_YIELD, DAYS_PER_YEAR,
      ELECTROLYSER_LIFETIME_YR, ELECTROLYSER_OPEX_FRAC,
      STACK_REPLACEMENT_FRACTION, HRS_CAPEX_EUR_PER_STATION,
      NEW_HRS_STATIONS, EUR_GBP, EXISTING_TYSELEY_CAPACITY_KG_DAY]

/-- C6 (amended): for every electricity price, discount rate and override
combination, the exact pre-rounding total is the exact sum of the six
components, so the stored (3-decimal) total differs from the sum of the six
stored components by at most £0.0035/kg. -/
theorem C6_total_near_component_sum (p dr : ℚ) (o1 o2 o3 o4 o5 : Option ℚ) :
    |(calculate_lcoh p dr o1 o2 o3 o4 o5).total_dispensed_cost_gbp_kg -
      ((calculate_lcoh p dr o1 o2 o3 o4 o5).electricity_cost_gbp_kg +
        (calculate_lcoh p dr o1 o2 o3 o4 o5).capex_amortised_gbp_kg +
        (calculate_lcoh p dr o1 o2 o3 o4 o5).opex_non_energy_gbp_kg +
        (calculate_lcoh p dr o1 o2 o3 o4 o5).stack_replacement_gbp_kg +
        (calculate_lcoh p dr o1 o2 o3 o4 o5).transport_gbp_kg +
        (calculate_lcoh p dr o1 o2 o3 o4 o5).hrs_opex_gbp_kg)| ≤ 7/2000 := by
  simp only [calculate_lcoh]
  exact roundQ3_sum_bound _ _ _ _ _ _

/-- C7: changing only the transport-cost override leaves the electricity,
amortised-capex, non-energy-opex, stack-replacement, HRS-opex and
production components untouched, while the stored transport component and
the stored total each move by exactly the override delta up to the
3-decimal rounding (at most £0.001/kg). -/
theorem C7_transport_override_frame (t1 t2 : ℚ) :
    (calculate_lcoh ELECTRICITY_PRICE_GBP_MWH DISCOUNT_RATE none none none
      (some t1) none).electricity_cost_gbp_kg =
    (calculate_lcoh ELECTRICITY_PRICE_GBP_MWH DISCOUNT_RATE none none none
      (some t2) none).electricity_cost_gbp_kg ∧
    (calculate_lcoh ELECTRICITY_PRICE_GBP_MWH DISCOUNT_RATE none none none
      (some t1) none).capex_amortised_gbp_kg =
    (calculate_lcoh ELECTRICITY_PRICE_GBP_MWH DISCOUNT_RATE none none none
      (some t2) none).capex_amortised_gbp_kg ∧
    (calculate_lcoh ELECTRICITY_PRICE_GBP_MWH DISCOUNT_RATE none none none
      (some t1) none).opex_non_energy_gbp_kg =
    (calculate_lcoh ELECTRICITY_PRICE_GBP_MWH DISCOUNT_RATE none none none
      (some t2) none).opex_non_energy_gbp_kg ∧
    (calculate_lcoh ELECTRICITY_PRICE_GBP_MWH DISCOUNT_RATE none none none
      (some t1) none).stack_replacement_gbp_kg =
    (calculate_lcoh ELECTRICITY_PRICE_GBP_MWH DISCOUNT_RATE none none none
      (some t2) none).stack_replacement_gbp_kg ∧
    (calculate_lcoh ELECTRICITY_PRICE_GBP_MWH DISCOUNT_RATE none none none
      (some t1) none).hrs_opex_gbp_kg =
    (calculate_lcoh ELECTRICITY_PRICE_GBP_MWH DISCOUNT_RATE none none none
      (some t2) none).hrs_opex_gbp_kg ∧
    (calculate_lcoh ELECTRICITY_PRICE_GBP_MWH DISCOUNT_RATE none none none
      (some t1) none).production_lcoh_gbp_kg =
    (calculate_lcoh ELECTRICITY_PRICE_GBP_MWH DISCOUNT_RATE none none none
      (some t2) none).production_lcoh_gbp_kg ∧
    |((calculate_lcoh ELECTRICITY_PRICE_GBP_MWH DISCOUNT_RATE none none none
        (some t2) none).transport_gbp_kg -
      (calculate_lcoh ELECTRICITY_PRICE_GBP_MWH DISCOUNT_RATE none none none
        (some t1) none).transport_gbp_kg) - (t2 - t1)| ≤ 1/1000 ∧
    |((calculate_lcoh ELECTRICITY_PRICE_GBP_MWH DISCOUNT_RATE none none none
        (some t2) none).total_dispensed_cost_gbp_kg -
      (calculate_lcoh ELECTRICITY_PRICE_GBP_MWH DISCOUNT_RATE none none none
        (some t1) none).total_dispensed_cost_gbp_kg) - (t2 - t1)| ≤ 1/1000 := by
  simp only [calculate_lcoh, Option.getD]
  refine ⟨trivial, trivial, trivial, trivial, trivial, trivial, ?_, ?_⟩
  · exact roundQ3_diff_bound t2 t1 t2 t1 rfl
  · exact roundQ3_diff_bound _ _ t2 t1 (by ring)

/-- C9: both `calculate_annual_costs` and `diesel_breakeven_price` feed the
electricity price (£/MWh) into `calculate_emissions` in place of a grid
carbon intensity (g/kWh): the reported CO2 saving and its monetised value
are those of `calculate_emissions` evaluated at the electricity price, and
at the baseline price 57 they differ from the values at the default
intensity 35. -/
theorem C9_electricity_price_as_grid_intensity :
    (∀ p c d : ℚ, (calculate_annual_costs p c d).carbon_saving_tonnes =
      (calculate_emissions p).co2_saving_tonnes_yr) ∧
    (∀ p c d : ℚ, (calculate_annual_costs p c d).carbon_saving_value_gbp =
      roundQ 0 ((calculate_emissions p).co2_saving_tonnes_yr * c)) ∧
    (calculate_emissions ELECTRICITY_PRICE_GBP_MWH).co2_saving_tonnes_yr ≠
      (calculate_emissions GRID_CARBON_INTENSITY_G_KWH).co2_saving_tonnes_yr ∧
    (∀ p c : ℚ, diesel_breakeven_price p c =
      roundQ 3 ((calculate_demand_default.annual_total_kg *
        (calculate_lcoh p DISCOUNT_RATE none none none none
          none).total_dispensed_cost_gbp_kg -
        (calculate_emissions p).diesel_annual_co2_tonnes *
          c) /
        ((TOTAL_BUSES * DAILY_MILEAGE_KM * DAYS_PER_YEAR) /
          DIESEL_FUEL_ECONOMY_KM_L))) := by
  refine ⟨?_, ?_, ?_, ?_⟩
  · intro p c d
    simp only [calculate_annual_costs, calculate_emissions]
    exact roundQ_idem 1 _
  · intro p c d
    simp only [calculate_annual_costs]
  · norm_num [calculate_emissions, calculate_demand_default, calculate_demand,
      roundQ, rhe, Int.fract, ELECTRICITY_PRICE_GBP_MWH,
      GRID_CARBON_INTENSITY_G_KWH, ELECTROLYSER_EFFICIENCY_KWH_KG,
      HRS_ENERGY_KWH_KG, TRANSPORT_EMISSION_KG_KG, DIESEL_EMISSION_KG_KM,
      TOTAL_BUSES, EXISTING_BUSES, FUEL_ECONOMY_KG_100KM, DAILY_MILEAGE_KM,
      DAYS_PER_YEAR, EXISTING_TYSELEY_CAPACITY_KG_DAY]
  · intro p c
    simp only [diesel_breakeven_price]

/-- C8: whenever `calculate_npv_irr` returns, its simple payback field is
capex / annual benefit (rounded to one decimal) for strictly positive
benefit and the infinite marker otherwise; the only error the function can
raise concerns the discount rate, never the payback division; and every
discount rate other than 0 and -1 yields a full record. -/
theorem C8_simple_payback_guarded :
    (∀ p c dr : ℚ, ∀ N : ℕ, ∀ d : ℚ, ∀ fa : FinancialAnalysis,
      calculate_npv_irr p c dr N d = .ok fa →
      (0 < (calculate_annual_costs p c d).total_annual_benefit_gbp →
        fa.simple_payback_yr = some (roundQ 1
          (calculate_capex_default.total_capex_gbp /
            (calculate_annual_costs p c d).total_annual_benefit_gbp))) ∧
      ((calculate_annual_costs p c d).total_annual_benefit_gbp ≤ 0 →
        fa.simple_payback_yr = none)) ∧
    (∀ p c dr : ℚ, ∀ N : ℕ, ∀ d : ℚ, ∀ e : String,
      calculate_npv_irr p c dr N d = .error e → dr = 0 ∨ 1 + dr = 0) ∧
    (∀ p c dr : ℚ, ∀ N : ℕ, ∀ d : ℚ, dr ≠ 0 → 1 + dr ≠ 0 →
      ∃ fa, calculate_npv_irr p c dr N d = .ok fa) := by
  refine ⟨?_, ?_, ?_⟩
  · intro p c dr N d fa hok
    by_cases hcond : (1 + dr = 0 ∧ 0 < N) ∨ dr = 0
    · exfalso
      have herr := calculate_npv_irr_raises p c dr N d hcond.symm
      rw [herr] at hok
      exact Except.noConfusion hok
    · simp only [calculate_npv_irr] at hok
      rw [if_neg hcond] at hok
      injection hok with hfa
      subst hfa
      constructor
      · intro hpos
        simp only [if_pos hpos, Option.map]
      · intro hnonpos
        simp only [if_neg (not_lt.mpr hnonpos), Option.map]
  · exact calculate_npv_irr_error_cases
  · intro p c dr N d h1 h2
    exact ⟨_, calculate_npv_irr_ok p c dr N d h1 h2⟩

/-- Witness for C8: at discount rate 0 the function raises the
division-by-zero error (so the error case concerns only the rate), and at
discount rate 0.1 a full record is returned. -/
theorem C8_simple_payback_guarded_witness :
    calculate_npv_irr 57 50 0 20 (7/5) = .error "ZeroDivisionError" ∧
    ((0:ℚ) = 0 ∨ (1:ℚ) + 0 = 0) ∧
    ∃ fa, calculate_npv_irr 57 50 (1/10) 20 (7/5) = .ok fa := by
  have herr : calculate_npv_irr 57 50 0 20 (7/5) = .error "ZeroDivisionError" :=
    calculate_npv_irr_raises 57 50 0 20 (7/5) (Or.inl rfl)
  exact ⟨herr, C8_simple_payback_guarded.2.1 57 50 0 20 (7/5) _ herr,
    C8_simple_payback_guarded.2.2 57 50 (1/10) 20 (7/5) (by norm_num)
      (by norm_num)⟩

/-- C10: the baseline call with discount rate 0 raises the benefit-cost
ratio's division-by-zero, while any rate other than 0 and -1 returns a
record whose benefit-cost ratio is the formula dividing by the rate, and
the NPV itself is perfectly well defined at rate 0 (the undiscounted sum). -/
theorem C10_bcr_zero_rate_division :
    calculate_npv_irr ELECTRICITY_PRICE_GBP_MWH CARBON_PRICE_BASELINE 0
      PROJECT_LIFE_YR DIESEL_PRICE_GBP_LITRE = .error "ZeroDivisionError" ∧
    (∀ p c dr : ℚ, ∀ N : ℕ, ∀ d : ℚ, dr ≠ 0 → 1 + dr ≠ 0 →
      ∃ fa, calculate_npv_irr p c dr N d = .ok fa ∧
        fa.bcr = roundQ 3
          ((calculate_annual_costs p c d).total_annual_benefit_gbp *
            ((1 - (1 + dr) ^ (-(N : ℤ))) / dr) /
            calculate_capex_default.total_capex_gbp)) ∧
    (∀ cf : List ℚ, npv_at_rate cf 0 = cf.sum) := by
  refine ⟨calculate_npv_irr_raises _ _ _ _ _ (Or.inl rfl), ?_, npv_zero_rate⟩
  intro p c dr N d h1 h2
  exact ⟨_, calculate_npv_irr_ok p c dr N d h1 h2, rfl⟩

/-- Witness for C10: a full record with the stated benefit-cost ratio at
discount rate 0.05, and the rate-0 NPV of `[1, 2, 3]` as its plain sum. -/
theorem C10_bcr_zero_rate_division_witness :
    (∃ fa, calculate_npv_irr 57 50 (1/20) 20 (7/5) = .ok fa ∧
      fa.bcr = roundQ 3
        ((calculate_annual_costs 57 50 (7/5)).total_annual_benefit_gbp *
          ((1 - (1 + (1/20:ℚ)) ^ (-(20:ℕ) : ℤ)) / (1/20)) /
          calculate_capex_default.total_capex_gbp)) ∧
    npv_at_rate [(1:ℚ), 2, 3] 0 = [(1:ℚ), 2, 3].sum :=
  ⟨C10_bcr_zero_rate_division.2.1 57 50 (1/20) 20 (7/5) (by norm_num)
    (by norm_num), C10_bcr_zero_rate_division.2.2 [(1:ℚ), 2, 3]⟩

/-- C4 (amended): for a series whose endpoint NPVs strictly disagree in
sign, `_irr` always returns a rate inside the search domain, obtained by
bisection on sub-intervals with opposite-sign endpoint NPVs; the rate meets
the £1 NPV tolerance whenever the loop stops early, and otherwise is the
midpoint of a final bracket of width 2.5·2⁻¹⁰⁰ — the tolerance itself is
not guaranteed in that second case. -/
theorem C4_bisection_bracket (cf : List ℚ)
    (hprod : npv_at_rate cf (-(1/2)) * npv_at_rate cf 2 < 0) :
    ∃ r, _irr cf = some r ∧ -(1/2) ≤ r ∧ r ≤ 2 ∧
      (|npv_at_rate cf r| < 1 ∨
        ∃ l h, -(1/2) ≤ l ∧ h ≤ 2 ∧ r = (l + h) / 2 ∧
          h - l = (5/2) / 2 ^ 100 ∧
          npv_at_rate cf l * npv_at_rate cf h < 0) := by
  have hlt : (-(1/2) : ℚ) < 2 := by norm_num
  obtain ⟨hA, hB, hC⟩ := bisect_spec cf 100 (-(1/2)) 2 hlt hprod
  have heq : _irr cf =
      some (bisect cf (npv_at_rate cf (-(1/2))) (-(1/2)) 2 100) := by
    simp only [_irr]
    rw [if_neg (not_lt.mpr (le_of_lt hprod))]
  refine ⟨_, heq, hA, hB, ?_⟩
  rcases hC with hC | ⟨l, h, hl, hh, hr, hw, hp⟩
  · exact Or.inl hC
  · refine Or.inr ⟨l, h, hl, hh, hr, ?_, hp⟩
    rw [hw]
    norm_num

/-- Witness for C4 at the series `[-2, 4]`, whose endpoint NPVs are 6 and
-2/3. -/
theorem C4_bisection_bracket_witness :
    npv_at_rate [(-2:ℚ), 4] (-(1/2)) * npv_at_rate [(-2:ℚ), 4] 2 < 0 ∧
    ∃ r, _irr [(-2:ℚ), 4] = some r ∧ -(1/2) ≤ r ∧ r ≤ 2 ∧
      (|npv_at_rate [(-2:ℚ), 4] r| < 1 ∨
        ∃ l h, -(1/2) ≤ l ∧ h ≤ 2 ∧ r = (l + h) / 2 ∧
          h - l = (5/2) / 2 ^ 100 ∧
          npv_at_rate [(-2:ℚ), 4] l * npv_at_rate [(-2:ℚ), 4] h < 0) := by
  have hp : npv_at_rate [(-2:ℚ), 4] (-(1/2)) * npv_at_rate [(-2:ℚ), 4] 2 < 0 := by
    rw [npv_pair, npv_pair]
    norm_num
  exact ⟨hp, C4_bisection_bracket _ hp⟩
/-- The 100-step bisection run of `_irr` on the series
`[-(3 * 2 ^ 110), 4 * 2 ^ 110]`: the tolerance test never fires, so the
loop exhausts its budget and returns the final midpoint. -/
theorem c4_bisect_run :
    bisect [-(3 * 2 ^ 110), 4 * 2 ^ 110] 6490371073168534535663120411525120 (-(1/2)) 2 100 =
    (1690200800304305868662270940503/5070602400912917605986812821504) := by
  exact
    (bisect_step_lt [-(3 * 2 ^ 110), 4 * 2 ^ 110] 6490371073168534535663120411525120 (-(1/2)) 2 (3/4) (-(6490371073168534535663120411525120/7)) 99 (by norm_num) (by rw [npv_pair]; norm_num) (Or.inl (by norm_num)) (by norm_num)).trans (
     (bisect_step_ge [-(3 * 2 ^ 110), 4 * 2 ^ 110] 6490371073168534535663120411525120 (-(1/2)) (3/4) (1/8) (6490371073168534535663120411525120/9) 98 (by norm_num) (by rw [npv_pair]; norm_num) (Or.inr (by norm_num)) (by norm_num)).trans (
      (bisect_step_lt [-(3 * 2 ^ 110), 4 * 2 ^ 110] (6490371073168534535663120411525120/9) (1/8) (3/4) (7/16) (-(6490371073168534535663120411525120/23)) 97 (by norm_num) (by rw [npv_pair]; norm_num) (Or.inl (by norm_num)) (by norm_num)).trans (
       (bisect_step_ge [-(3 * 2 ^ 110), 4 * 2 ^ 110] (6490371073168534535663120411525120/9) (1/8) (7/16) (9/32) (6490371073168534535663120411525120/41) 96 (by norm_num) (by rw [npv_pair]; norm_num) (Or.inr (by norm_num)) (by norm_num)).trans (
        (bisect_step_lt [-(3 * 2 ^ 110), 4 * 2 ^ 110] (6490371073168534535663120411525120/41) (9/32) (7/16) (23/64) (-(6490371073168534535663120411525120/87)) 95 (by norm_num) (by rw [npv_pair]; norm_num) (Or.inl (by norm_num)) (by norm_num)).trans (
         (bisect_step_ge [-(3 * 2 ^ 110), 4 * 2 ^ 110] (6490371073168534535663120411525120/41) (9/32) (23/64) (41/128) (6490371073168534535663120411525120/169) 94 (by norm_num) (by rw [npv_pair]; norm_num) (Or.inr (by norm_num)) (by norm_num)).trans (
          (bisect_step_lt [-(3 * 2 ^ 110), 4 * 2 ^ 110] (6490371073168534535663120411525120/169) (41/128) (23/64) (87/256) (-(6490371073168534535663120411525120/343)) 93 (by norm_num) (by rw [npv_pair]; norm_num) (Or.inl (by norm_num)) (by norm_num)).trans (
           (bisect_step_ge [-(3 * 2 ^ 110), 4 * 2 ^ 110] (6490371073168534535663120411525120/169) (41/128) (87/256) (169/512) (6490371073168534535663120411525120/681) 92 (by norm_num) (by rw [npv_pair]; norm_num) (Or.inr (by norm_num)) (by norm_num)).trans (
            (bisect_step_lt [-(3 * 2 ^ 110), 4 * 2 ^ 110] (6490371073168534535663120411525120/681) (169/512) (87/256) (343/1024) (-(6490371073168534535663120411525120/1367)) 91 (by norm_num) (by rw [npv_pair]; norm_num) (Or.inl (by norm_num)) (by norm_num)).trans (
             (bisect_step_ge [-(3 * 2 ^ 110), 4 * 2 ^ 110] (6490371073168534535663120411525120/681) (169/512) (343/1024) (681/2048) (6490371073168534535663120411525120/2729) 90 (by norm_num) (by rw [npv_pair]; norm_num) (Or.inr (by norm_num)) (by norm_num)).trans (
              (bisect_step_lt [-(3 * 2 ^ 110), 4 * 2 ^ 110] (6490371073168534535663120411525120/2729) (681/2048) (343/1024) (1367/4096) (-(6490371073168534535663120411525120/5463)) 89 (by norm_num) (by rw [npv_pair]; norm_num) (Or.inl (by norm_num)) (by norm_num)).trans (
               (bisect_step_ge [-(3 * 2 ^ 110), 4 * 2 ^ 110] (6490371073168534535663120411525120/2729) (681/2048) (1367/4096) (2729/8192) (6490371073168534535663120411525120/10921) 88 (by norm_num) (by rw [npv_pair]; norm_num) (Or.inr (by norm_num)) (by norm_num)).trans (
                (bisect_step_lt [-(3 * 2 ^ 110), 4 * 2 ^ 110] (6490371073168534535663120411525120/10921) (2729/8192) (1367/4096) (5463/16384) (-(6490371073168534535663120411525120/21847)) 87 (by norm_num) (by rw [npv_pair]; norm_num) (Or.inl (by norm_num)) (by norm_num)).trans (
                 (bisect_step_ge [-(3 * 2 ^ 110), 4 * 2 ^ 110] (6490371073168534535663120411525120/10921) (2729/8192) (5463/16384) (10921/32768) (6490371073168534535663120411525120/43689) 86 (by norm_num) (by rw [npv_pair]; norm_num) (Or.inr (by norm_num)) (by norm_num)).trans (
                  (bisect_step_lt [-(3 * 2 ^ 110), 4 * 2 ^ 110] (6490371073168534535663120411525120/43689) (10921/32768) (5463/16384) (21847/65536) (-(6490371073168534535663120411525120/87383)) 85 (by norm_num) (by rw [npv_pair]; norm_num) (Or.inl (by norm_num)) (by norm_num)).trans (
                   (bisect_step_ge [-(3 * 2 ^ 110), 4 * 2 ^ 110] (6490371073168534535663120411525120/43689) (10921/32768) (21847/65536) (43689/131072) (6490371073168534535663120411525120/174761) 84 (by norm_num) (by rw [npv_pair]; norm_num) (Or.inr (by norm_num)) (by norm_num)).trans (
                    (bisect_step_lt [-(3 * 2 ^ 110), 4 * 2 ^ 110] (6490371073168534535663120411525120/174761) (43689/131072) (21847/65536) (87383/262144) (-(6490371073168534535663120411525120/349527)) 83 (by norm_num) (by rw [npv_pair]; norm_num) (Or.inl (by norm_num)) (by norm_num)).trans (
                     (bisect_step_ge [-(3 * 2 ^ 110), 4 * 2 ^ 110] (6490371073168534535663120411525120/174761) (43689/131072) (87383/262144) (174761/524288) (6490371073168534535663120411525120/699049) 82 (by norm_num) (by rw [npv_pair]; norm_num) (Or.inr (by norm_num)) (by norm_num)).trans (
                      (bisect_step_lt [-(3 * 2 ^ 110), 4 * 2 ^ 110] (6490371073168534535663120411525120/699049) (174761/524288) (87383/262144) (349527/1048576) (-(6490371073168534535663120411525120/1398103)) 81 (by norm_num) (by rw [npv_pair]; norm_num) (Or.inl (by norm_num)) (by norm_num)).trans (
                       (bisect_step_ge [-(3 * 2 ^ 110), 4 * 2 ^ 110] (6490371073168534535663120411525120/699049) (174761/524288) (349527/1048576) (699049/2097152) (6490371073168534535663120411525120/2796201) 80 (by norm_num) (by rw [npv_pair]; norm_num) (Or.inr (by norm_num)) (by norm_num)).trans (
                        (bisect_step_lt [-(3 * 2 ^ 110), 4 * 2 ^ 110] (6490371073168534535663120411525120/2796201) (699049/2097152) (349527/1048576) (1398103/4194304) (-(6490371073168534535663120411525120/5592407)) 79 (by norm_num) (by rw [npv_pair]; norm_num) (Or.inl (by norm_num)) (by norm_num)).trans (
                         (bisect_step_ge [-(3 * 2 ^ 110), 4 * 2 ^ 110] (6490371073168534535663120411525120/2796201) (699049/2097152) (1398103/4194304) (2796201/8388608) (6490371073168534535663120411525120/11184809) 78 (by norm_num) (by rw [npv_pair]; norm_num) (Or.inr (by norm_num)) (by norm_num)).trans (
                          (bisect_step_lt [-(3 * 2 ^ 110), 4 * 2 ^ 110] (6490371073168534535663120411525120/11184809) (2796201/8388608) (1398103/4194304) (5592407/16777216) (-(6490371073168534535663120411525120/22369623)) 77 (by norm_num) (by rw [npv_pair]; norm_num) (Or.inl (by norm_num)) (by norm_num)).trans (
                           (bisect_step_ge [-(3 * 2 ^ 110), 4 * 2 ^ 110] (6490371073168534535663120411525120/11184809) (2796201/8388608) (5592407/16777216) (11184809/33554432) (6490371073168534535663120411525120/44739241) 76 (by norm_num) (by rw [npv_pair]; norm_num) (Or.inr (by norm_num)) (by norm_num)).trans (
                            (bisect_step_lt [-(3 * 2 ^ 110), 4 * 2 ^ 110] (6490371073168534535663120411525120/44739241) (11184809/33554432) (5592407/16777216) (22369623/67108864) (-(6490371073168534535663120411525120/89478487)) 75 (by norm_num) (by rw [npv_pair]; norm_num) (Or.inl (by norm_num)) (by norm_num)).trans (
                             (bisect_step_ge [-(3 * 2 ^ 110), 4 * 2 ^ 110] (6490371073168534535663120411525120/44739241) (11184809/33554432) (22369623/67108864) (44739241/134217728) (6490371073168534535663120411525120/178956969) 74 (by norm_num) (by rw [npv_pair]; norm_num) (Or.inr (by norm_num)) (by norm_num)).trans (
                              (bisect_step_lt [-(3 * 2 ^ 110), 4 * 2 ^ 110] (6490371073168534535663120411525120/178956969) (44739241/134217728) (22369623/67108864) (89478487/268435456) (-(6490371073168534535663120411525120/357913943)) 73 (by norm_num) (by rw [npv_pair]; norm_num) (Or.inl (by norm_num)) (by norm_num)).trans (
                               (bisect_step_ge [-(3 * 2 ^ 110), 4 * 2 ^ 110] (6490371073168534535663120411525120/178956969) (44739241/134217728) (89478487/268435456) (178956969/536870912) (6490371073168534535663120411525120/715827881) 72 (by norm_num) (by rw [npv_pair]; norm_num) (Or.inr (by norm_num)) (by norm_num)).trans (
                                (bisect_step_lt [-(3 * 2 ^ 110), 4 * 2 ^ 110] (6490371073168534535663120411525120/715827881) (178956969/536870912) (89478487/268435456) (357913943/1073741824) (-(6490371073168534535663120411525120/1431655767)) 71 (by norm_num) (by rw [npv_pair]; norm_num) (Or.inl (by norm_num)) (by norm_num)).trans (
                                 (bisect_step_ge [-(3 * 2 ^ 110), 4 * 2 ^ 110] (6490371073168534535663120411525120/715827881) (178956969/536870912) (357913943/1073741824) (715827881/2147483648) (6490371073168534535663120411525120/2863311529) 70 (by norm_num) (by rw [npv_pair]; norm_num) (Or.inr (by norm_num)) (by norm_num)).trans (
                                  (bisect_step_lt [-(3 * 2 ^ 110), 4 * 2 ^ 110] (6490371073168534535663120411525120/2863311529) (715827881/2147483648) (357913943/1073741824) (1431655767/4294967296) (-(6490371073168534535663120411525120/5726623063)) 69 (by norm_num) (by rw [npv_pair]; norm_num) (Or.inl (by norm_num)) (by norm_num)).trans (
                                   (bisect_step_ge [-(3 * 2 ^ 110), 4 * 2 ^ 110] (6490371073168534535663120411525120/2863311529) (715827881/2147483648) (1431655767/4294967296) (2863311529/8589934592) (6490371073168534535663120411525120/11453246121) 68 (by norm_num) (by rw [npv_pair]; norm_num) (Or.inr (by norm_num)) (by norm_num)).trans (
                                    (bisect_step_lt [-(3 * 2 ^ 110), 4 * 2 ^ 110] (6490371073168534535663120411525120/11453246121) (2863311529/8589934592) (1431655767/4294967296) (5726623063/17179869184) (-(6490371073168534535663120411525120/22906492247)) 67 (by norm_num) (by rw [npv_pair]; norm_num) (Or.inl (by norm_num)) (by norm_num)).trans (
                                     (bisect_step_ge [-(3 * 2 ^ 110), 4 * 2 ^ 110] (6490371073168534535663120411525120/11453246121) (2863311529/8589934592) (5726623063/17179869184) (11453246121/34359738368) (6490371073168534535663120411525120/45812984489) 66 (by norm_num) (by rw [npv_pair]; norm_num) (Or.inr (by norm_num)) (by norm_num)).trans (
                                      (bisect_step_lt [-(3 * 2 ^ 110), 4 * 2 ^ 110] (6490371073168534535663120411525120/45812984489) (11453246121/34359738368) (5726623063/17179869184) (22906492247/68719476736) (-(6490371073168534535663120411525120/91625968983)) 65 (by norm_num) (by rw [npv_pair]; norm_num) (Or.inl (by norm_num)) (by norm_num)).trans (
                                       (bisect_step_ge [-(3 * 2 ^ 110), 4 * 2 ^ 110] (6490371073168534535663120411525120/45812984489) (11453246121/34359738368) (22906492247/68719476736) (45812984489/137438953472) (6490371073168534535663120411525120/183251937961) 64 (by norm_num) (by rw [npv_pair]; norm_num) (Or.inr (by norm_num)) (by norm_num)).trans (
                                        (bisect_step_lt [-(3 * 2 ^ 110), 4 * 2 ^ 110] (6490371073168534535663120411525120/183251937961) (45812984489/137438953472) (22906492247/68719476736) (91625968983/274877906944) (-(6490371073168534535663120411525120/366503875927)) 63 (by norm_num) (by rw [npv_pair]; norm_num) (Or.inl (by norm_num)) (by norm_num)).trans (
                                         (bisect_step_ge [-(3 * 2 ^ 110), 4 * 2 ^ 110] (6490371073168534535663120411525120/183251937961) (45812984489/137438953472) (91625968983/274877906944) (183251937961/549755813888) (6490371073168534535663120411525120/733007751849) 62 (by norm_num) (by rw [npv_pair]; norm_num) (Or.inr (by norm_num)) (by norm_num)).trans (
                                          (bisect_step_lt [-(3 * 2 ^ 110), 4 * 2 ^ 110] (6490371073168534535663120411525120/733007751849) (183251937961/549755813888) (91625968983/274877906944) (366503875927/1099511627776) (-(6490371073168534535663120411525120/1466015503703)) 61 (by norm_num) (by rw [npv_pair]; norm_num) (Or.inl (by norm_num)) (by norm_num)).trans (
                                           (bisect_step_ge [-(3 * 2 ^ 110), 4 * 2 ^ 110] (6490371073168534535663120411525120/733007751849) (183251937961/549755813888) (366503875927/1099511627776) (733007751849/2199023255552) (6490371073168534535663120411525120/2932031007401) 60 (by norm_num) (by rw [npv_pair]; norm_num) (Or.inr (by norm_num)) (by norm_num)).trans (
                                            (bisect_step_lt [-(3 * 2 ^ 110), 4 * 2 ^ 110] (6490371073168534535663120411525120/2932031007401) (733007751849/2199023255552) (366503875927/1099511627776) (1466015503703/4398046511104) (-(6490371073168534535663120411525120/5864062014807)) 59 (by norm_num) (by rw [npv_pair]; norm_num) (Or.inl (by norm_num)) (by norm_num)).trans (
                                             (bisect_step_ge [-(3 * 2 ^ 110), 4 * 2 ^ 110] (6490371073168534535663120411525120/2932031007401) (733007751849/2199023255552) (1466015503703/4398046511104) (2932031007401/8796093022208) (6490371073168534535663120411525120/11728124029609) 58 (by norm_num) (by rw [npv_pair]; norm_num) (Or.inr (by norm_num)) (by norm_num)).trans (
                                              (bisect_step_lt [-(3 * 2 ^ 110), 4 * 2 ^ 110] (6490371073168534535663120411525120/11728124029609) (2932031007401/8796093022208) (1466015503703/4398046511104) (5864062014807/17592186044416) (-(6490371073168534535663120411525120/23456248059223)) 57 (by norm_num) (by rw [npv_pair]; norm_num) (Or.inl (by norm_num)) (by norm_num)).trans (
                                               (bisect_step_ge [-(3 * 2 ^ 110), 4 * 2 ^ 110] (6490371073168534535663120411525120/11728124029609) (2932031007401/8796093022208) (5864062014807/17592186044416) (11728124029609/35184372088832) (6490371073168534535663120411525120/46912496118441) 56 (by norm_num) (by rw [npv_pair]; norm_num) (Or.inr (by norm_num)) (by norm_num)).trans (
                                                (bisect_step_lt [-(3 * 2 ^ 110), 4 * 2 ^ 110] (6490371073168534535663120411525120/46912496118441) (11728124029609/35184372088832) (5864062014807/17592186044416) (23456248059223/70368744177664) (-(6490371073168534535663120411525120/93824992236887)) 55 (by norm_num) (by rw [npv_pair]; norm_num) (Or.inl (by norm_num)) (by norm_num)).trans (
                                                 (bisect_step_ge [-(3 * 2 ^ 110), 4 * 2 ^ 110] (6490371073168534535663120411525120/46912496118441) (11728124029609/35184372088832) (23456248059223/70368744177664) (46912496118441/140737488355328) (6490371073168534535663120411525120/187649984473769) 54 (by norm_num) (by rw [npv_pair]; norm_num) (Or.inr (by norm_num)) (by norm_num)).trans (
                                                  (bisect_step_lt [-(3 * 2 ^ 110), 4 * 2 ^ 110] (6490371073168534535663120411525120/187649984473769) (46912496118441/140737488355328) (23456248059223/70368744177664) (93824992236887/281474976710656) (-(6490371073168534535663120411525120/375299968947543)) 53 (by norm_num) (by rw [npv_pair]; norm_num) (Or.inl (by norm_num)) (by norm_num)).trans (
                                                   (bisect_step_ge [-(3 * 2 ^ 110), 4 * 2 ^ 110] (6490371073168534535663120411525120/187649984473769) (46912496118441/140737488355328) (93824992236887/281474976710656) (187649984473769/562949953421312) (6490371073168534535663120411525120/750599937895081) 52 (by norm_num) (by rw [npv_pair]; norm_num) (Or.inr (by norm_num)) (by norm_num)).trans (
                                                    (bisect_step_lt [-(3 * 2 ^ 110), 4 * 2 ^ 110] (6490371073168534535663120411525120/750599937895081) (187649984473769/562949953421312) (93824992236887/281474976710656) (375299968947543/1125899906842624) (-(6490371073168534535663120411525120/1501199875790167)) 51 (by norm_num) (by rw [npv_pair]; norm_num) (Or.inl (by norm_num)) (by norm_num)).trans (
                                                     (bisect_step_ge [-(3 * 2 ^ 110), 4 * 2 ^ 110] (6490371073168534535663120411525120/750599937895081) (187649984473769/562949953421312) (375299968947543/1125899906842624) (750599937895081/2251799813685248) (6490371073168534535663120411525120/3002399751580329) 50 (by norm_num) (by rw [npv_pair]; norm_num) (Or.inr (by norm_num)) (by norm_num)).trans (
                                                      (bisect_step_lt [-(3 * 2 ^ 110), 4 * 2 ^ 110] (6490371073168534535663120411525120/3002399751580329) (750599937895081/2251799813685248) (375299968947543/1125899906842624) (1501199875790167/4503599627370496) (-(6490371073168534535663120411525120/6004799503160663)) 49 (by norm_num) (by rw [npv_pair]; norm_num) (Or.inl (by norm_num)) (by norm_num)).trans (
                                                       (bisect_step_ge [-(3 * 2 ^ 110), 4 * 2 ^ 110] (6490371073168534535663120411525120/3002399751580329) (750599937895081/2251799813685248) (1501199875790167/4503599627370496) (3002399751580329/9007199254740992) (6490371073168534535663120411525120/12009599006321321) 48 (by norm_num) (by rw [npv_pair]; norm_num) (Or.inr (by norm_num)) (by norm_num)).trans (
                                                        (bisect_step_lt [-(3 * 2 ^ 110), 4 * 2 ^ 110] (6490371073168534535663120411525120/12009599006321321) (3002399751580329/9007199254740992) (1501199875790167/4503599627370496) (6004799503160663/18014398509481984) (-(6490371073168534535663120411525120/24019198012642647)) 47 (by norm_num) (by rw [npv_pair]; norm_num) (Or.inl (by norm_num)) (by norm_num)).trans (
                                                         (bisect_step_ge [-(3 * 2 ^ 110), 4 * 2 ^ 110] (6490371073168534535663120411525120/12009599006321321) (3002399751580329/9007199254740992) (6004799503160663/18014398509481984) (12009599006321321/36028797018963968) (6490371073168534535663120411525120/48038396025285289) 46 (by norm_num) (by rw [npv_pair]; norm_num) (Or.inr (by norm_num)) (by norm_num)).trans (
                                                          (bisect_step_lt [-(3 * 2 ^ 110), 4 * 2 ^ 110] (6490371073168534535663120411525120/48038396025285289) (12009599006321321/36028797018963968) (6004799503160663/18014398509481984) (24019198012642647/72057594037927936) (-(6490371073168534535663120411525120/96076792050570583)) 45 (by norm_num) (by rw [npv_pair]; norm_num) (Or.inl (by norm_num)) (by norm_num)).trans (
                                                           (bisect_step_ge [-(3 * 2 ^ 110), 4 * 2 ^ 110] (6490371073168534535663120411525120/48038396025285289) (12009599006321321/36028797018963968) (24019198012642647/72057594037927936) (48038396025285289/144115188075855872) (6490371073168534535663120411525120/192153584101141161) 44 (by norm_num) (by rw [npv_pair]; norm_num) (Or.inr (by norm_num)) (by norm_num)).trans (
                                                            (bisect_step_lt [-(3 * 2 ^ 110), 4 * 2 ^ 110] (6490371073168534535663120411525120/192153584101141161) (48038396025285289/144115188075855872) (24019198012642647/72057594037927936) (96076792050570583/288230376151711744) (-(6490371073168534535663120411525120/384307168202282327)) 43 (by norm_num) (by rw [npv_pair]; norm_num) (Or.inl (by norm_num)) (by norm_num)).trans (
                                                             (bisect_step_ge [-(3 * 2 ^ 110), 4 * 2 ^ 110] (6490371073168534535663120411525120/192153584101141161) (48038396025285289/144115188075855872) (96076792050570583/288230376151711744) (192153584101141161/576460752303423488) (6490371073168534535663120411525120/768614336404564649) 42 (by norm_num) (by rw [npv_pair]; norm_num) (Or.inr (by norm_num)) (by norm_num)).trans (
                                                              (bisect_step_lt [-(3 * 2 ^ 110), 4 * 2 ^ 110] (6490371073168534535663120411525120/768614336404564649) (192153584101141161/576460752303423488) (96076792050570583/288230376151711744) (384307168202282327/1152921504606846976) (-(6490371073168534535663120411525120/1537228672809129303)) 41 (by norm_num) (by rw [npv_pair]; norm_num) (Or.inl (by norm_num)) (by norm_num)).trans (
                                                               (bisect_step_ge [-(3 * 2 ^ 110), 4 * 2 ^ 110] (6490371073168534535663120411525120/768614336404564649) (192153584101141161/576460752303423488) (384307168202282327/1152921504606846976) (768614336404564649/2305843009213693952) (6490371073168534535663120411525120/3074457345618258601) 40 (by norm_num) (by rw [npv_pair]; norm_num) (Or.inr (by norm_num)) (by norm_num)).trans (
                                                                (bisect_step_lt [-(3 * 2 ^ 110), 4 * 2 ^ 110] (6490371073168534535663120411525120/3074457345618258601) (768614336404564649/2305843009213693952) (384307168202282327/1152921504606846976) (1537228672809129303/4611686018427387904) (-(6490371073168534535663120411525120/6148914691236517207)) 39 (by norm_num) (by rw [npv_pair]; norm_num) (Or.inl (by norm_num)) (by norm_num)).trans (
                                                                 (bisect_step_ge [-(3 * 2 ^ 110), 4 * 2 ^ 110] (6490371073168534535663120411525120/3074457345618258601) (768614336404564649/2305843009213693952) (1537228672809129303/4611686018427387904) (3074457345618258601/9223372036854775808) (6490371073168534535663120411525120/12297829382473034409) 38 (by norm_num) (by rw [npv_pair]; norm_num) (Or.inr (by norm_num)) (by norm_num)).trans (
                                                                  (bisect_step_lt [-(3 * 2 ^ 110), 4 * 2 ^ 110] (6490371073168534535663120411525120/12297829382473034409) (3074457345618258601/9223372036854775808) (1537228672809129303/4611686018427387904) (6148914691236517207/18446744073709551616) (-(6490371073168534535663120411525120/24595658764946068823)) 37 (by norm_num) (by rw [npv_pair]; norm_num) (Or.inl (by norm_num)) (by norm_num)).trans (
                                                                   (bisect_step_ge [-(3 * 2 ^ 110), 4 * 2 ^ 110] (6490371073168534535663120411525120/12297829382473034409) (3074457345618258601/9223372036854775808) (6148914691236517207/18446744073709551616) (12297829382473034409/36893488147419103232) (6490371073168534535663120411525120/49191317529892137641) 36 (by norm_num) (by rw [npv_pair]; norm_num) (Or.inr (by norm_num)) (by norm_num)).trans (
                                                                    (bisect_step_lt [-(3 * 2 ^ 110), 4 * 2 ^ 110] (6490371073168534535663120411525120/49191317529892137641) (12297829382473034409/36893488147419103232) (6148914691236517207/18446744073709551616) (24595658764946068823/73786976294838206464) (-(6490371073168534535663120411525120/98382635059784275287)) 35 (by norm_num) (by rw [npv_pair]; norm_num) (Or.inl (by norm_num)) (by norm_num)).trans (
                                                                     (bisect_step_ge [-(3 * 2 ^ 110), 4 * 2 ^ 110] (6490371073168534535663120411525120/49191317529892137641) (12297829382473034409/36893488147419103232) (24595658764946068823/73786976294838206464) (49191317529892137641/147573952589676412928) (6490371073168534535663120411525120/196765270119568550569) 34 (by norm_num) (by rw [npv_pair]; norm_num) (Or.inr (by norm_num)) (by norm_num)).trans (
                                                                      (bisect_step_lt [-(3 * 2 ^ 110), 4 * 2 ^ 110] (6490371073168534535663120411525120/196765270119568550569) (49191317529892137641/147573952589676412928) (24595658764946068823/73786976294838206464) (98382635059784275287/295147905179352825856) (-(6490371073168534535663120411525120/393530540239137101143)) 33 (by norm_num) (by rw [npv_pair]; norm_num) (Or.inl (by norm_num)) (by norm_num)).trans (
                                                                       (bisect_step_ge [-(3 * 2 ^ 110), 4 * 2 ^ 110] (6490371073168534535663120411525120/196765270119568550569) (49191317529892137641/147573952589676412928) (98382635059784275287/295147905179352825856) (196765270119568550569/590295810358705651712) (6490371073168534535663120411525120/787061080478274202281) 32 (by norm_num) (by rw [npv_pair]; norm_num) (Or.inr (by norm_num)) (by norm_num)).trans (
                                                                        (bisect_step_lt [-(3 * 2 ^ 110), 4 * 2 ^ 110] (6490371073168534535663120411525120/787061080478274202281) (196765270119568550569/590295810358705651712) (98382635059784275287/295147905179352825856) (393530540239137101143/1180591620717411303424) (-(6490371073168534535663120411525120/1574122160956548404567)) 31 (by norm_num) (by rw [npv_pair]; norm_num) (Or.inl (by norm_num)) (by norm_num)).trans (
                                                                         (bisect_step_ge [-(3 * 2 ^ 110), 4 * 2 ^ 110] (6490371073168534535663120411525120/787061080478274202281) (196765270119568550569/590295810358705651712) (393530540239137101143/1180591620717411303424) (787061080478274202281/2361183241434822606848) (6490371073168534535663120411525120/3148244321913096809129) 30 (by norm_num) (by rw [npv_pair]; norm_num) (Or.inr (by norm_num)) (by norm_num)).trans (
                                                                          (bisect_step_lt [-(3 * 2 ^ 110), 4 * 2 ^ 110] (6490371073168534535663120411525120/3148244321913096809129) (787061080478274202281/2361183241434822606848) (393530540239137101143/1180591620717411303424) (1574122160956548404567/4722366482869645213696) (-(6490371073168534535663120411525120/6296488643826193618263)) 29 (by norm_num) (by rw [npv_pair]; norm_num) (Or.inl (by norm_num)) (by norm_num)).trans (
                                                                           (bisect_step_ge [-(3 * 2 ^ 110), 4 * 2 ^ 110] (6490371073168534535663120411525120/3148244321913096809129) (787061080478274202281/2361183241434822606848) (1574122160956548404567/4722366482869645213696) (3148244321913096809129/9444732965739290427392) (6490371073168534535663120411525120/12592977287652387236521) 28 (by norm_num) (by rw [npv_pair]; norm_num) (Or.inr (by norm_num)) (by norm_num)).trans (
                                                                            (bisect_step_lt [-(3 * 2 ^ 110), 4 * 2 ^ 110] (6490371073168534535663120411525120/12592977287652387236521) (3148244321913096809129/9444732965739290427392) (1574122160956548404567/4722366482869645213696) (6296488643826193618263/18889465931478580854784) (-(6490371073168534535663120411525120/25185954575304774473047)) 27 (by norm_num) (by rw [npv_pair]; norm_num) (Or.inl (by norm_num)) (by norm_num)).trans (
                                                                             (bisect_step_ge [-(3 * 2 ^ 110), 4 * 2 ^ 110] (6490371073168534535663120411525120/12592977287652387236521) (3148244321913096809129/9444732965739290427392) (6296488643826193618263/18889465931478580854784) (12592977287652387236521/37778931862957161709568) (6490371073168534535663120411525120/50371909150609548946089) 26 (by norm_num) (by rw [npv_pair]; norm_num) (Or.inr (by norm_num)) (by norm_num)).trans (
                                                                              (bisect_step_lt [-(3 * 2 ^ 110), 4 * 2 ^ 110] (6490371073168534535663120411525120/50371909150609548946089) (12592977287652387236521/37778931862957161709568) (6296488643826193618263/18889465931478580854784) (25185954575304774473047/75557863725914323419136) (-(6490371073168534535663120411525120/100743818301219097892183)) 25 (by norm_num) (by rw [npv_pair]; norm_num) (Or.inl (by norm_num)) (by norm_num)).trans (
                                                                               (bisect_step_ge [-(3 * 2 ^ 110), 4 * 2 ^ 110] (6490371073168534535663120411525120/50371909150609548946089) (12592977287652387236521/37778931862957161709568) (25185954575304774473047/75557863725914323419136) (50371909150609548946089/151115727451828646838272) (6490371073168534535663120411525120/201487636602438195784361) 24 (by norm_num) (by rw [npv_pair]; norm_num) (Or.inr (by norm_num)) (by norm_num)).trans (
                                                                                (bisect_step_lt [-(3 * 2 ^ 110), 4 * 2 ^ 110] (6490371073168534535663120411525120/201487636602438195784361) (50371909150609548946089/151115727451828646838272) (25185954575304774473047/75557863725914323419136) (100743818301219097892183/302231454903657293676544) (-(6490371073168534535663120411525120/402975273204876391568727)) 23 (by norm_num) (by rw [npv_pair]; norm_num) (Or.inl (by norm_num)) (by norm_num)).trans (
                                                                                 (bisect_step_ge [-(3 * 2 ^ 110), 4 * 2 ^ 110] (6490371073168534535663120411525120/201487636602438195784361) (50371909150609548946089/151115727451828646838272) (100743818301219097892183/302231454903657293676544) (201487636602438195784361/604462909807314587353088) (6490371073168534535663120411525120/805950546409752783137449) 22 (by norm_num) (by rw [npv_pair]; norm_num) (Or.inr (by norm_num)) (by norm_num)).trans (
                                                                                  (bisect_step_lt [-(3 * 2 ^ 110), 4 * 2 ^ 110] (6490371073168534535663120411525120/805950546409752783137449) (201487636602438195784361/604462909807314587353088) (100743818301219097892183/302231454903657293676544) (402975273204876391568727/1208925819614629174706176) (-(6490371073168534535663120411525120/1611901092819505566274903)) 21 (by norm_num) (by rw [npv_pair]; norm_num) (Or.inl (by norm_num)) (by norm_num)).trans (
                                                                                   (bisect_step_ge [-(3 * 2 ^ 110), 4 * 2 ^ 110] (6490371073168534535663120411525120/805950546409752783137449) (201487636602438195784361/604462909807314587353088) (402975273204876391568727/1208925819614629174706176) (805950546409752783137449/2417851639229258349412352) (6490371073168534535663120411525120/3223802185639011132549801) 20 (by norm_num) (by rw [npv_pair]; norm_num) (Or.inr (by norm_num)) (by norm_num)).trans (
                                                                                    (bisect_step_lt [-(3 * 2 ^ 110), 4 * 2 ^ 110] (6490371073168534535663120411525120/3223802185639011132549801) (805950546409752783137449/2417851639229258349412352) (402975273204876391568727/1208925819614629174706176) (1611901092819505566274903/4835703278458516698824704) (-(6490371073168534535663120411525120/6447604371278022265099607)) 19 (by norm_num) (by rw [npv_pair]; norm_num) (Or.inl (by norm_num)) (by norm_num)).trans (
                                                                                     (bisect_step_ge [-(3 * 2 ^ 110), 4 * 2 ^ 110] (6490371073168534535663120411525120/3223802185639011132549801) (805950546409752783137449/2417851639229258349412352) (1611901092819505566274903/4835703278458516698824704) (3223802185639011132549801/9671406556917033397649408) (6490371073168534535663120411525120/12895208742556044530199209) 18 (by norm_num) (by rw [npv_pair]; norm_num) (Or.inr (by norm_num)) (by norm_num)).trans (
                                                                                      (bisect_step_lt [-(3 * 2 ^ 110), 4 * 2 ^ 110] (6490371073168534535663120411525120/12895208742556044530199209) (3223802185639011132549801/9671406556917033397649408) (1611901092819505566274903/4835703278458516698824704) (6447604371278022265099607/19342813113834066795298816) (-(6490371073168534535663120411525120/25790417485112089060398423)) 17 (by norm_num) (by rw [npv_pair]; norm_num) (Or.inl (by norm_num)) (by norm_num)).trans (
                                                                                       (bisect_step_ge [-(3 * 2 ^ 110), 4 * 2 ^ 110] (6490371073168534535663120411525120/12895208742556044530199209) (3223802185639011132549801/9671406556917033397649408) (6447604371278022265099607/19342813113834066795298816) (12895208742556044530199209/38685626227668133590597632) (6490371073168534535663120411525120/51580834970224178120796841) 16 (by norm_num) (by rw [npv_pair]; norm_num) (Or.inr (by norm_num)) (by norm_num)).trans (
                                                                                        (bisect_step_lt [-(3 * 2 ^ 110), 4 * 2 ^ 110] (6490371073168534535663120411525120/51580834970224178120796841) (12895208742556044530199209/38685626227668133590597632) (6447604371278022265099607/19342813113834066795298816) (25790417485112089060398423/77371252455336267181195264) (-(6490371073168534535663120411525120/103161669940448356241593687)) 15 (by norm_num) (by rw [npv_pair]; norm_num) (Or.inl (by norm_num)) (by norm_num)).trans (
                                                                                         (bisect_step_ge [-(3 * 2 ^ 110), 4 * 2 ^ 110] (6490371073168534535663120411525120/51580834970224178120796841) (12895208742556044530199209/38685626227668133590597632) (25790417485112089060398423/77371252455336267181195264) (51580834970224178120796841/154742504910672534362390528) (6490371073168534535663120411525120/206323339880896712483187369) 14 (by norm_num) (by rw [npv_pair]; norm_num) (Or.inr (by norm_num)) (by norm_num)).trans (
                                                                                          (bisect_step_lt [-(3 * 2 ^ 110), 4 * 2 ^ 110] (6490371073168534535663120411525120/206323339880896712483187369) (51580834970224178120796841/154742504910672534362390528) (25790417485112089060398423/77371252455336267181195264) (103161669940448356241593687/309485009821345068724781056) (-(6490371073168534535663120411525120/412646679761793424966374743)) 13 (by norm_num) (by rw [npv_pair]; norm_num) (Or.inl (by norm_num)) (by norm_num)).trans (
                                                                                           (bisect_step_ge [-(3 * 2 ^ 110), 4 * 2 ^ 110] (6490371073168534535663120411525120/206323339880896712483187369) (51580834970224178120796841/154742504910672534362390528) (103161669940448356241593687/309485009821345068724781056) (206323339880896712483187369/618970019642690137449562112) (6490371073168534535663120411525120/825293359523586849932749481) 12 (by norm_num) (by rw [npv_pair]; norm_num) (Or.inr (by norm_num)) (by norm_num)).trans (
                                                                                            (bisect_step_lt [-(3 * 2 ^ 110), 4 * 2 ^ 110] (6490371073168534535663120411525120/825293359523586849932749481) (206323339880896712483187369/618970019642690137449562112) (103161669940448356241593687/309485009821345068724781056) (412646679761793424966374743/1237940039285380274899124224) (-(6490371073168534535663120411525120/1650586719047173699865498967)) 11 (by norm_num) (by rw [npv_pair]; norm_num) (Or.inl (by norm_num)) (by norm_num)).trans (
                                                                                             (bisect_step_ge [-(3 * 2 ^ 110), 4 * 2 ^ 110] (6490371073168534535663120411525120/825293359523586849932749481) (206323339880896712483187369/618970019642690137449562112) (412646679761793424966374743/1237940039285380274899124224) (825293359523586849932749481/2475880078570760549798248448) (6490371073168534535663120411525120/3301173438094347399730997929) 10 (by norm_num) (by rw [npv_pair]; norm_num) (Or.inr (by norm_num)) (by norm_num)).trans (
                                                                                              (bisect_step_lt [-(3 * 2 ^ 110), 4 * 2 ^ 110] (6490371073168534535663120411525120/3301173438094347399730997929) (825293359523586849932749481/2475880078570760549798248448) (412646679761793424966374743/1237940039285380274899124224) (1650586719047173699865498967/4951760157141521099596496896) (-(6490371073168534535663120411525120/6602346876188694799461995863)) 9 (by norm_num) (by rw [npv_pair]; norm_num) (Or.inl (by norm_num)) (by norm_num)).trans (
                                                                                               (bisect_step_ge [-(3 * 2 ^ 110), 4 * 2 ^ 110] (6490371073168534535663120411525120/3301173438094347399730997929) (825293359523586849932749481/2475880078570760549798248448) (1650586719047173699865498967/4951760157141521099596496896) (3301173438094347399730997929/9903520314283042199192993792) (6490371073168534535663120411525120/13204693752377389598923991721) 8 (by norm_num) (by rw [npv_pair]; norm_num) (Or.inr (by norm_num)) (by norm_num)).trans (
                                                                                                (bisect_step_lt [-(3 * 2 ^ 110), 4 * 2 ^ 110] (6490371073168534535663120411525120/13204693752377389598923991721) (3301173438094347399730997929/9903520314283042199192993792) (1650586719047173699865498967/4951760157141521099596496896) (6602346876188694799461995863/19807040628566084398385987584) (-(6490371073168534535663120411525120/26409387504754779197847983447)) 7 (by norm_num) (by rw [npv_pair]; norm_num) (Or.inl (by norm_num)) (by norm_num)).trans (
                                                                                                 (bisect_step_ge [-(3 * 2 ^ 110), 4 * 2 ^ 110] (6490371073168534535663120411525120/13204693752377389598923991721) (3301173438094347399730997929/9903520314283042199192993792) (6602346876188694799461995863/19807040628566084398385987584) (13204693752377389598923991721/39614081257132168796771975168) (6490371073168534535663120411525120/52818775009509558395695966889) 6 (by norm_num) (by rw [npv_pair]; norm_num) (Or.inr (by norm_num)) (by norm_num)).trans (
                                                                                                  (bisect_step_lt [-(3 * 2 ^ 110), 4 * 2 ^ 110] (6490371073168534535663120411525120/52818775009509558395695966889) (13204693752377389598923991721/39614081257132168796771975168) (6602346876188694799461995863/19807040628566084398385987584) (26409387504754779197847983447/79228162514264337593543950336) (-(6490371073168534535663120411525120/105637550019019116791391933783)) 5 (by norm_num) (by rw [npv_pair]; norm_num) (Or.inl (by norm_num)) (by norm_num)).trans (
                                                                                                   (bisect_step_ge [-(3 * 2 ^ 110), 4 * 2 ^ 110] (6490371073168534535663120411525120/52818775009509558395695966889) (13204693752377389598923991721/39614081257132168796771975168) (26409387504754779197847983447/79228162514264337593543950336) (52818775009509558395695966889/158456325028528675187087900672) (6490371073168534535663120411525120/211275100038038233582783867561) 4 (by norm_num) (by rw [npv_pair]; norm_num) (Or.inr (by norm_num)) (by norm_num)).trans (
                                                                                                    (bisect_step_lt [-(3 * 2 ^ 110), 4 * 2 ^ 110] (6490371073168534535663120411525120/211275100038038233582783867561) (52818775009509558395695966889/158456325028528675187087900672) (26409387504754779197847983447/79228162514264337593543950336) (105637550019019116791391933783/316912650057057350374175801344) (-(6490371073168534535663120411525120/422550200076076467165567735127)) 3 (by norm_num) (by rw [npv_pair]; norm_num) (Or.inl (by norm_num)) (by norm_num)).trans (
                                                                                                     (bisect_step_ge [-(3 * 2 ^ 110), 4 * 2 ^ 110] (6490371073168534535663120411525120/211275100038038233582783867561) (52818775009509558395695966889/158456325028528675187087900672) (105637550019019116791391933783/316912650057057350374175801344) (211275100038038233582783867561/633825300114114700748351602688) (6490371073168534535663120411525120/845100400152152934331135470249) 2 (by norm_num) (by rw [npv_pair]; norm_num) (Or.inr (by norm_num)) (by norm_num)).trans (
                                                                                                      (bisect_step_lt [-(3 * 2 ^ 110), 4 * 2 ^ 110] (6490371073168534535663120411525120/845100400152152934331135470249) (211275100038038233582783867561/633825300114114700748351602688) (105637550019019116791391933783/316912650057057350374175801344) (422550200076076467165567735127/1267650600228229401496703205376) (-(6490371073168534535663120411525120/1690200800304305868662270940503)) 1 (by norm_num) (by rw [npv_pair]; norm_num) (Or.inl (by norm_num)) (by norm_num)).trans (
                                                                                                       (bisect_step_ge [-(3 * 2 ^ 110), 4 * 2 ^ 110] (6490371073168534535663120411525120/845100400152152934331135470249) (211275100038038233582783867561/633825300114114700748351602688) (422550200076076467165567735127/1267650600228229401496703205376) (845100400152152934331135470249/2535301200456458802993406410752) (6490371073168534535663120411525120/3380401600608611737324541881001) 0 (by norm_num) (by rw [npv_pair]; norm_num) (Or.inr (by norm_num)) (by norm_num)).trans (
                                                                                                        ((bisect_zero [-(3 * 2 ^ 110), 4 * 2 ^ 110] (6490371073168534535663120411525120/3380401600608611737324541881001) (845100400152152934331135470249/2535301200456458802993406410752) (422550200076076467165567735127/1267650600228229401496703205376)).trans (by norm_num))))))))))))))))))))))))))))))))))))))))))))))))))))))))))))))))))))))))))))))))))))))))))))))))))))))

/-- C4 (counterexample): the series `[-(3·2^110), 4·2^110]` has
opposite-sign endpoint NPVs and exactly one NPV root (1/3) in the search
domain, yet no bisection midpoint ever meets the £1 tolerance, and the
rate returned after the 100-iteration budget has an NPV magnitude far
above 1 currency unit. -/
theorem C4_tolerance_cex :
    0 < npv_at_rate [-(3 * 2 ^ 110), 4 * 2 ^ 110] (-(1/2)) ∧
    npv_at_rate [-(3 * 2 ^ 110), 4 * 2 ^ 110] 2 < 0 ∧
    (∀ r : ℚ, -(1/2) ≤ r → r ≤ 2 →
      (npv_at_rate [-(3 * 2 ^ 110), 4 * 2 ^ 110] r = 0 ↔ r = 1/3)) ∧
    _irr [-(3 * 2 ^ 110), 4 * 2 ^ 110] =
      some (1690200800304305868662270940503/5070602400912917605986812821504) ∧
    1 ≤ |npv_at_rate [-(3 * 2 ^ 110), 4 * 2 ^ 110]
      (1690200800304305868662270940503/5070602400912917605986812821504)| := by
  refine ⟨?_, ?_, ?_, ?_, ?_⟩
  · rw [npv_pair]
    norm_num
  · rw [npv_pair]
    norm_num
  · intro r h1 h2
    rw [npv_pair]
    constructor
    · intro h0
      have hr : (0:ℚ) < 1 + r := by linarith
      field_simp [hr.ne'] at h0
      norm_num at h0 ⊢
      linarith
    · intro h
      subst h
      norm_num
  · have hL : npv_at_rate [-(3 * 2 ^ 110), 4 * 2 ^ 110] (-(1/2)) =
        6490371073168534535663120411525120 := by
      rw [npv_pair]
      norm_num
    have hneg : ¬ 0 < npv_at_rate [-(3 * 2 ^ 110), 4 * 2 ^ 110] (-(1/2)) *
        npv_at_rate [-(3 * 2 ^ 110), 4 * 2 ^ 110] 2 := by
      rw [npv_pair, npv_pair]
      norm_num
    simp only [_irr]
    rw [if_neg hneg, hL, c4_bisect_run]
  · rw [npv_pair]
    rw [abs_of_neg (by norm_num)]
    norm_num
